import Mathlib

/-!
# Exynos5 gralloc: buffer geometry and allocation sequencing

A shallow embedding of `gralloc/gralloc.cpp`: the `ALIGN` macro, `_select_heap`,
`gralloc_alloc_rgb`, `gralloc_alloc_framework_yuv`, `gralloc_alloc_yuv`,
`gralloc_alloc` and `gralloc_free`.

Conventions.

* `int` and `unsigned int`/`size_t` are 32 bits wide (the Exynos5 is an ILP32 ARMv7
  target).  A `size_t`/`unsigned` value is a `Nat` below `2^32` (its bit pattern); an
  `int` value is an `Int`.  `u32` converts to unsigned, `s32` reads a bit pattern as a
  signed value.  Signed overflow is modelled as two's-complement wrap-around.
* Bit masks (`usage`, `ion_flags`, `heap_mask`) are `Nat` bit patterns.
* The external calls (`ion_alloc_fd`, `close`, `grallocMap`, `grallocUnmap`,
  `private_handle_t::validate`) are supplied by a `Collaborators` record; every call is
  appended to a trace of `Event`s, so that the theorems can speak about which calls
  were made, in which order and with which arguments.
* Constants that come from headers outside `gralloc.cpp` are the fields of a `Headers`
  record; the theorems hold for every well-formed choice of them.
-/

namespace Gralloc

/-! ## Machine integers -/

/-- Conversion of an integer to `unsigned int` / `size_t`: its 32-bit pattern. -/
def u32 (x : Int) : Nat := (x % 4294967296).toNat

/-- Reading of a 32-bit pattern as a (two's-complement) `int`. -/
def s32 (p : Nat) : Int :=
  if p % 4294967296 < 2147483648 then ((p % 4294967296 : Nat) : Int)
  else ((p % 4294967296 : Nat) : Int) - 4294967296

/-- Multiplication of two `int`s. -/
def imul (a b : Int) : Int := s32 (u32 (a * b))

/-- Division of two `int`s (C division truncates towards zero). -/
def idiv (a b : Int) : Int := s32 (u32 (Int.tdiv a b))

/-- Multiplication of two `size_t` values. -/
def umul (a b : Nat) : Nat := (a * b) % 4294967296

/-- The macro `#define ALIGN(x, a) (((x) + (a - 1)) & ~(a - 1))`, on 32-bit patterns
(addition, complement and conjunction act alike on signed and unsigned operands). -/
def ALIGN (x a : Nat) : Nat :=
  ((x + (a - 1)) % 4294967296) &&& (4294967295 ^^^ ((a - 1) % 4294967296))

/-- The macro `ALIGN` applied to an `int` operand, the result read as an `int`. -/
def ALIGN_int (x : Int) (a : Nat) : Int := s32 (ALIGN (u32 x) a)

/-- The rounding the specification speaks of: `x` rounded up to a multiple of `a`. -/
def round_up (x a : Nat) : Nat := (x + (a - 1)) / a * a

/-! ## Constants from headers -/

/-- The enumerators `HAL_PIXEL_FORMAT_*` that `gralloc.cpp` switches on. -/
inductive PixelFormat
  | RGBA_8888 | RGBX_8888 | BGRA_8888 | RGB_888
  | RGB_565 | RGBA_5551 | RGBA_4444 | RAW_SENSOR | BLOB
  | EXYNOS_YV12 | EXYNOS_YCrCb_420_SP | YCbCr_420_SP | YCbCr_420_SP_TILED
  | YV12 | YCrCb_420_SP
  deriving DecidableEq

/-- The constants `gralloc.cpp` takes from headers that are not part of the sources
(`errno.h`, `asm/page.h`, `hardware/gralloc.h`, `linux/ion.h`, `system/graphics.h`,
`exynos_format.h`).  `PAGE_SIZE` is `1 << PAGE_SHIFT`. -/
structure Headers where
  EINVAL : Int
  PAGE_SHIFT : Nat
  GRALLOC_USAGE_PROTECTED : Nat
  GRALLOC_USAGE_SW_READ_MASK : Nat
  GRALLOC_USAGE_SW_READ_OFTEN : Nat
  ION_HEAP_TYPE_SYSTEM : Nat
  ION_HEAP_SYSTEM_MASK : Nat
  ION_FLAG_CACHED : Nat
  HAL_PIXEL_FORMAT : PixelFormat → Int

/-- The host page size, `1 << PAGE_SHIFT`. -/
def Headers.PAGE_SIZE (H : Headers) : Nat := 2 ^ H.PAGE_SHIFT

/-- What any real set of headers satisfies: `EINVAL` is a positive error number, the
page shift fits a 32-bit word, and distinct enumerators have distinct values. -/
structure Headers.WF (H : Headers) : Prop where
  einval_pos : 0 < H.EINVAL
  page_shift_le : H.PAGE_SHIFT ≤ 31
  format_inj : ∀ a b, H.HAL_PIXEL_FORMAT a = H.HAL_PIXEL_FORMAT b → a = b

/-- The constant `#define ION_HEAP_EXYNOS_CONTIG_MASK (1 << 4)`. -/
def ION_HEAP_EXYNOS_CONTIG_MASK : Nat := 1 <<< 4

/-- The constant `#define ION_EXYNOS_VIDEO_MASK (1 << 29)`. -/
def ION_EXYNOS_VIDEO_MASK : Nat := 1 <<< 29

/-! ## The buffer handle -/

/-- Modelled from the spec: `private_handle_t` is declared in `gralloc_priv.h`, which is
not part of the sources.  A handle holds one primary backing-resource reference `fd`
and up to two further plane references `fd1`, `fd2` (an absent one is recorded as
negative), the size of the primary allocation, the usage flags, width, height, format,
stride and vertical stride. -/
structure private_handle_t where
  fd : Int
  fd1 : Int
  fd2 : Int
  size : Nat
  flags : Nat
  width : Int
  height : Int
  format : Int
  stride : Int
  vstride : Int
  deriving DecidableEq

/-- Modelled from the spec: the one-plane constructor
`private_handle_t(fd, size, usage, w, h, format, stride, vstride)` of `gralloc_priv.h`;
the absent plane references are recorded as `-1`. -/
def private_handle_t.new1 (fd : Int) (size usage : Nat) (w h format stride vstride : Int) :
    private_handle_t :=
  { fd := fd, fd1 := -1, fd2 := -1, size := size, flags := usage, width := w, height := h,
    format := format, stride := stride, vstride := vstride }

/-- Modelled from the spec: the two-plane constructor
`private_handle_t(fd, fd1, size, usage, w, h, format, stride, vstride)`. -/
def private_handle_t.new2 (fd fd1 : Int) (size usage : Nat)
    (w h format stride vstride : Int) : private_handle_t :=
  { fd := fd, fd1 := fd1, fd2 := -1, size := size, flags := usage, width := w, height := h,
    format := format, stride := stride, vstride := vstride }

/-- Modelled from the spec: the three-plane constructor
`private_handle_t(fd, fd1, fd2, size, usage, w, h, format, stride, vstride)`. -/
def private_handle_t.new3 (fd fd1 fd2 : Int) (size usage : Nat)
    (w h format stride vstride : Int) : private_handle_t :=
  { fd := fd, fd1 := fd1, fd2 := fd2, size := size, flags := usage, width := w, height := h,
    format := format, stride := stride, vstride := vstride }

/-- The backing resources a handle holds: `fd`, and `fd1`, `fd2` when present
(non-negative).  Its length is the handle's plane count. -/
def private_handle_t.resources (hnd : private_handle_t) : List Int :=
  [hnd.fd] ++ (if 0 ≤ hnd.fd1 then [hnd.fd1] else []) ++ (if 0 ≤ hnd.fd2 then [hnd.fd2] else [])

/-! ## External collaborators and the trace of calls -/

/-- The arguments of one call `ion_alloc_fd(ionfd, len, align, heap_mask, flags, &fd)`. -/
structure IonRequest where
  ionfd : Int
  len : Nat
  align : Nat
  heap_mask : Nat
  flags : Nat
  deriving DecidableEq

/-- The outcome of one call of `ion_alloc_fd`: the returned status, and the value the
out-parameter holds afterwards (the new descriptor when the call succeeded; whatever
the uninitialised variable held when it failed). -/
structure IonReply where
  err : Int
  fd : Int
  deriving DecidableEq

/-- A pool request succeeds when it returns `0` and hands out a descriptor, which is a
non-negative number. -/
def IonReply.ok (r : IonReply) : Prop := r.err = 0 ∧ 0 ≤ r.fd

/-- The calls the allocator makes to the outside, and the handle objects it creates and
destroys. -/
inductive Event
  | ion_alloc_fd (req : IonRequest) (reply : IonReply)
  | close (fd : Int)
  | new_handle (hnd : private_handle_t)
  | delete_handle (hnd : private_handle_t)
  | grallocMap (hnd : private_handle_t) (err : Int)
  | grallocUnmap (hnd : private_handle_t)
  deriving DecidableEq

/-- The behaviour of the outside world: the pool service (its reply may depend on how
many requests came before and on the request), the result of `close`, of `grallocMap`
and of `private_handle_t::validate`. -/
structure Collaborators where
  ion_alloc_fd : Nat → IonRequest → IonReply
  close : Int → Int
  grallocMap : private_handle_t → Int
  validate : private_handle_t → Int

/-- The request of a pool-request event. -/
def Event.request? : Event → Option IonRequest
  | Event.ion_alloc_fd req _ => some req
  | _ => none

/-- The descriptor a pool-request event handed out, when the request succeeded. -/
def Event.handedOut? : Event → Option Int
  | Event.ion_alloc_fd _ reply => if reply.err = 0 then some reply.fd else none
  | _ => none

/-- The descriptor a `close` event released. -/
def Event.released? : Event → Option Int
  | Event.close fd => some fd
  | _ => none

/-- The handle a `new private_handle_t` event constructed. -/
def Event.constructed? : Event → Option private_handle_t
  | Event.new_handle hnd => some hnd
  | _ => none

/-- The handle a `grallocMap` event was called on. -/
def Event.mapped? : Event → Option private_handle_t
  | Event.grallocMap hnd _ => some hnd
  | _ => none

/-- The handle a `grallocUnmap` event was called on. -/
def Event.unmapped? : Event → Option private_handle_t
  | Event.grallocUnmap hnd => some hnd
  | _ => none

/-- The pool requests of a trace, in order. -/
def requests (tr : List Event) : List IonRequest := tr.filterMap Event.request?

/-- The descriptors the pool service handed out in a trace (successful requests). -/
def handedOut (tr : List Event) : List Int := tr.filterMap Event.handedOut?

/-- The descriptors released (`close`d) in a trace, in order. -/
def released (tr : List Event) : List Int := tr.filterMap Event.released?

/-- The handles constructed (`new private_handle_t`) in a trace. -/
def constructed (tr : List Event) : List private_handle_t := tr.filterMap Event.constructed?

/-- The handles passed to `grallocMap` in a trace. -/
def mapped (tr : List Event) : List private_handle_t := tr.filterMap Event.mapped?

/-- The handles passed to `grallocUnmap` in a trace. -/
def unmapped (tr : List Event) : List private_handle_t := tr.filterMap Event.unmapped?

/-- One call of `ion_alloc_fd`: the collaborator is asked, the call is logged. -/
def call_ion_alloc_fd (env : Collaborators) (req : IonRequest) (tr : List Event) :
    IonReply × List Event :=
  let reply := env.ion_alloc_fd (requests tr).length req
  (reply, tr ++ [Event.ion_alloc_fd req reply])

/-- One call of `close`; its result is discarded by every caller. -/
def call_close (env : Collaborators) (fd : Int) (tr : List Event) : List Event :=
  let _ := env.close fd
  tr ++ [Event.close fd]

/-! ## The allocator -/

/-- The function `_select_heap`. -/
def _select_heap (H : Headers) (usage : Nat) : Nat :=
  if usage &&& H.GRALLOC_USAGE_PROTECTED ≠ 0 then ION_HEAP_EXYNOS_CONTIG_MASK
  else H.ION_HEAP_SYSTEM_MASK

/-- The variables `hnd` and `stride` of `gralloc_alloc`, which the three allocation
functions receive by address. -/
structure Outs where
  hnd : private_handle_t
  stride : Int
  deriving DecidableEq

/-- What an allocation function leaves behind: its return value, the two out
variables, and the trace. -/
structure Ret where
  err : Int
  outs : Outs
  trace : List Event
  deriving DecidableEq

/-- The `switch (format)` of `gralloc_alloc_rgb`: bytes per pixel, `none` for the
`default:` label. -/
def rgb_bpp (H : Headers) (format : Int) : Option Int :=
  if format = H.HAL_PIXEL_FORMAT .RGBA_8888 ∨ format = H.HAL_PIXEL_FORMAT .RGBX_8888
      ∨ format = H.HAL_PIXEL_FORMAT .BGRA_8888 then some 4
  else if format = H.HAL_PIXEL_FORMAT .RGB_888 then some 3
  else if format = H.HAL_PIXEL_FORMAT .RGB_565 ∨ format = H.HAL_PIXEL_FORMAT .RGBA_5551
      ∨ format = H.HAL_PIXEL_FORMAT .RGBA_4444
      ∨ format = H.HAL_PIXEL_FORMAT .RAW_SENSOR then some 2
  else if format = H.HAL_PIXEL_FORMAT .BLOB then some 1
  else none

/-- The function `gralloc_alloc_rgb`. -/
def gralloc_alloc_rgb (H : Headers) (env : Collaborators) (ionfd w h format : Int)
    (usage ion_flags : Nat) (o : Outs) (tr : List Event) : Ret :=
  let heap_mask := _select_heap H usage
  match rgb_bpp H format with
  | none => { err := -H.EINVAL, outs := o, trace := tr }
  | some bpp =>
    let bpr : Nat := u32 (ALIGN_int (imul w bpp) 16)
    let vstride : Int := ALIGN_int h 16
    let size : Nat := umul bpr (u32 vstride)
    let stride : Int := s32 (bpr / u32 bpp)
    let size : Nat := ALIGN size H.PAGE_SIZE
    let (reply, tr) := call_ion_alloc_fd env
      { ionfd := ionfd, len := size, align := 0, heap_mask := heap_mask, flags := ion_flags } tr
    let hnd := private_handle_t.new1 reply.fd size usage w h format stride vstride
    { err := reply.err, outs := { hnd := hnd, stride := stride },
      trace := tr ++ [Event.new_handle hnd] }

/-- The function `gralloc_alloc_framework_yuv`. -/
def gralloc_alloc_framework_yuv (H : Headers) (env : Collaborators) (ionfd w h format : Int)
    (usage ion_flags : Nat) (o : Outs) (tr : List Event) : Ret :=
  let stride : Option Int :=
    if format = H.HAL_PIXEL_FORMAT .YV12 then some (ALIGN_int w 16)
    else if format = H.HAL_PIXEL_FORMAT .YCrCb_420_SP then some w
    else none
  match stride with
  | none => { err := -H.EINVAL, outs := o, trace := tr }
  | some stride =>
    let size : Nat := u32 (idiv (imul (imul stride h) 3) 2)
    let (reply, tr) := call_ion_alloc_fd env
      { ionfd := ionfd, len := size, align := 0,
        heap_mask := (1 <<< H.ION_HEAP_TYPE_SYSTEM) % 4294967296, flags := ion_flags } tr
    if reply.err ≠ 0 then { err := reply.err, outs := { o with stride := stride }, trace := tr }
    else
      let hnd := private_handle_t.new1 reply.fd size usage w h format stride h
      { err := reply.err, outs := { hnd := hnd, stride := stride },
        trace := tr ++ [Event.new_handle hnd] }

/-- Lines 240 to 264 of `gralloc_alloc_yuv`: the plane requests with their roll-back,
and the construction of the handle. -/
def gralloc_alloc_yuv_planes (env : Collaborators) (ionfd w h format : Int)
    (usage ion_flags heap_mask : Nat) (luma_size chroma_size : Nat) (planes : Nat)
    (luma_vstride : Nat) (o : Outs) (tr : List Event) : Ret :=
  let (r0, tr) := call_ion_alloc_fd env
    { ionfd := ionfd, len := luma_size, align := 0, heap_mask := heap_mask,
      flags := ion_flags } tr
  if r0.err ≠ 0 then { err := r0.err, outs := o, trace := tr }
  else
    let (r1, tr) := call_ion_alloc_fd env
      { ionfd := ionfd, len := chroma_size, align := 0, heap_mask := heap_mask,
        flags := ion_flags } tr
    if r1.err ≠ 0 then
      -- err1:
      { err := r1.err, outs := o, trace := call_close env r0.fd tr }
    else if planes = 3 then
      let (r2, tr) := call_ion_alloc_fd env
        { ionfd := ionfd, len := chroma_size, align := 0, heap_mask := heap_mask,
          flags := ion_flags } tr
      if r2.err ≠ 0 then
        -- err2: then err1:
        { err := r2.err, outs := o, trace := call_close env r0.fd (call_close env r1.fd tr) }
      else
        let hnd := private_handle_t.new3 r0.fd r1.fd r2.fd luma_size usage w h format
          o.stride (s32 luma_vstride)
        { err := r2.err, outs := { o with hnd := hnd }, trace := tr ++ [Event.new_handle hnd] }
    else
      let hnd := private_handle_t.new2 r0.fd r1.fd luma_size usage w h format
        o.stride (s32 luma_vstride)
      { err := r1.err, outs := { o with hnd := hnd }, trace := tr ++ [Event.new_handle hnd] }

/-- The function `gralloc_alloc_yuv`. -/
def gralloc_alloc_yuv (H : Headers) (env : Collaborators) (ionfd w h format : Int)
    (usage ion_flags : Nat) (o : Outs) (tr : List Event) : Ret :=
  let heap_mask := _select_heap H usage
  let o : Outs := { o with stride := ALIGN_int w 16 }
  if format = H.HAL_PIXEL_FORMAT .EXYNOS_YV12 then
    let luma_vstride : Nat := u32 (ALIGN_int h 16)
    let luma_size : Nat := umul luma_vstride (u32 o.stride)
    let chroma_size : Nat := umul (luma_vstride / 2) (u32 (ALIGN_int (idiv o.stride 2) 16))
    gralloc_alloc_yuv_planes env ionfd w h format usage ion_flags heap_mask
      luma_size chroma_size 3 luma_vstride o tr
  else if format = H.HAL_PIXEL_FORMAT .EXYNOS_YCrCb_420_SP
      ∨ format = H.HAL_PIXEL_FORMAT .YCbCr_420_SP
      ∨ format = H.HAL_PIXEL_FORMAT .YCbCr_420_SP_TILED then
    let chroma_vstride : Nat := u32 (ALIGN_int (idiv h 2) 32)
    let luma_vstride : Nat := u32 (ALIGN_int h 32)
    let luma_size : Nat := umul luma_vstride (u32 o.stride)
    let chroma_size : Nat := umul chroma_vstride (u32 o.stride)
    gralloc_alloc_yuv_planes env ionfd w h format usage ion_flags heap_mask
      luma_size chroma_size 2 luma_vstride o tr
  else if format = H.HAL_PIXEL_FORMAT .YV12 ∨ format = H.HAL_PIXEL_FORMAT .YCrCb_420_SP then
    gralloc_alloc_framework_yuv H env ionfd w h format usage ion_flags o tr
  else
    { err := -H.EINVAL, outs := o, trace := tr }

/-- The derivation of `ion_flags` from `usage` at the head of `gralloc_alloc`. -/
def ion_flags_of (H : Headers) (usage : Nat) : Nat :=
  let ion_flags : Nat :=
    if usage &&& H.GRALLOC_USAGE_SW_READ_MASK = H.GRALLOC_USAGE_SW_READ_OFTEN
    then H.ION_FLAG_CACHED else 0
  if usage &&& H.GRALLOC_USAGE_PROTECTED ≠ 0 then ion_flags ||| ION_EXYNOS_VIDEO_MASK
  else ion_flags

/-- What `gralloc_alloc` leaves behind: its return value, the contents of the two
output slots (`none` for a null pointer), and the trace of the call. -/
structure AllocResult where
  ret : Int
  pHandle : Option private_handle_t
  pStride : Option Int
  trace : List Event
  deriving DecidableEq

/-- The function `gralloc_alloc`.  `ionfd` is `m->ionfd`.  An output slot is `none` when
the pointer is null and `some v` when it points to a slot holding `v`.  `uninit` is
what the uninitialised variables `hnd` and `stride` happen to hold on entry. -/
def gralloc_alloc (H : Headers) (env : Collaborators) (ionfd : Int) (uninit : Outs)
    (w h format : Int) (usage : Nat)
    (pHandle : Option private_handle_t) (pStride : Option Int) : AllocResult :=
  if pHandle = none ∨ pStride = none then
    { ret := -H.EINVAL, pHandle := pHandle, pStride := pStride, trace := [] }
  else
    let ion_flags := ion_flags_of H usage
    let r := gralloc_alloc_rgb H env ionfd w h format usage ion_flags uninit []
    let r := if r.err ≠ 0 then
        gralloc_alloc_yuv H env ionfd w h format usage ion_flags r.outs r.trace
      else r
    if r.err ≠ 0 then
      { ret := r.err, pHandle := pHandle, pStride := pStride, trace := r.trace }
    else
      let hnd := r.outs.hnd
      let err := env.grallocMap hnd
      let tr := r.trace ++ [Event.grallocMap hnd err]
      if err ≠ 0 then
        -- err:
        let tr := call_close env hnd.fd tr
        let tr := if 0 ≤ hnd.fd1 then call_close env hnd.fd1 tr else tr
        let tr := if 0 ≤ hnd.fd2 then call_close env hnd.fd2 tr else tr
        { ret := err, pHandle := pHandle, pStride := pStride, trace := tr }
      else
        { ret := 0, pHandle := some hnd, pStride := some r.outs.stride, trace := tr }

/-- The function `gralloc_free`: its return value and the trace of the call. -/
def gralloc_free (H : Headers) (env : Collaborators) (hnd : private_handle_t) :
    Int × List Event :=
  if env.validate hnd < 0 then (-H.EINVAL, [])
  else
    let tr := [Event.grallocUnmap hnd]
    let tr := call_close env hnd.fd tr
    let tr := if 0 ≤ hnd.fd1 then call_close env hnd.fd1 tr else tr
    let tr := if 0 ≤ hnd.fd2 then call_close env hnd.fd2 tr else tr
    (0, tr ++ [Event.delete_handle hnd])

/-! ## Vocabulary of the specification -/

/-- The bytes-per-pixel table of the packed catalog, as the specification lists it. -/
def packed_bpp : PixelFormat → Option Nat
  | .RGBA_8888 | .RGBX_8888 | .BGRA_8888 => some 4
  | .RGB_888 => some 3
  | .RGB_565 | .RGBA_5551 | .RGBA_4444 | .RAW_SENSOR => some 2
  | .BLOB => some 1
  | _ => none

/-- The number of backing resources the specification gives a buffer of each format:
three for the fully-planar format, two for the semi-planar family, one for the packed
formats and for the framework-native formats (one combined allocation). -/
def plane_count : PixelFormat → Nat
  | .EXYNOS_YV12 => 3
  | .EXYNOS_YCrCb_420_SP | .YCbCr_420_SP | .YCbCr_420_SP_TILED => 2
  | _ => 1

/-- The multi-plane formats: those whose buffers have more than one backing resource. -/
def PixelFormat.multiPlane (p : PixelFormat) : Prop := 2 ≤ plane_count p

/-- The framework-native formats `YV12` and `YCrCb_420_SP`. -/
def PixelFormat.frameworkNative (p : PixelFormat) : Prop :=
  p = PixelFormat.YV12 ∨ p = PixelFormat.YCrCb_420_SP

/-- The descriptors handed out by successful pool requests are non-negative numbers. -/
def Collaborators.descriptorsNonneg (env : Collaborators) : Prop :=
  ∀ n req, (env.ion_alloc_fd n req).err = 0 → 0 ≤ (env.ion_alloc_fd n req).fd

/-- A summary of what an allocation function did, starting from the trace `tr`: every
pool request it added carries the given pool selector and flags; it made no mapping
call; when it fails, the descriptors handed out meanwhile are released, latest first;
when it succeeds, nothing is released, `planes` descriptors were handed out, and they
are the resources of the handle it yields (descriptors being non-negative); and it
succeeds when the pool service never refuses. -/
def Ret.effect (env : Collaborators) (r : Ret) (tr : List Event)
    (heap_mask ion_flags planes : Nat) : Prop :=
  (∃ L, requests r.trace = requests tr ++ L
      ∧ ∀ req ∈ L, req.heap_mask = heap_mask ∧ req.flags = ion_flags)
  ∧ mapped r.trace = mapped tr
  ∧ (r.err ≠ 0 → ∃ D, handedOut r.trace = handedOut tr ++ D
      ∧ released r.trace = released tr ++ D.reverse)
  ∧ (r.err = 0 → released r.trace = released tr
      ∧ ∃ D, handedOut r.trace = handedOut tr ++ D ∧ D.length = planes
        ∧ (env.descriptorsNonneg → r.outs.hnd.resources = D))
  ∧ ((∀ n req, (env.ion_alloc_fd n req).err = 0) → r.err = 0)

/-- The pool selector the requests of a buffer of each format carry: the system pool,
`1 << ION_HEAP_TYPE_SYSTEM`, for the framework-native formats whatever the usage, and
the selector `_select_heap` derives from the usage for every other format. -/
def pool_selector (H : Headers) (p : PixelFormat) (usage : Nat) : Nat :=
  if p = PixelFormat.YV12 ∨ p = PixelFormat.YCrCb_420_SP then
    (1 <<< H.ION_HEAP_TYPE_SYSTEM) % 4294967296
  else _select_heap H usage

/-! ## A sample set of headers and sample collaborators -/

/-- A sample enumeration of the pixel formats: the framework formats carry the values
of the Android headers, the vendor formats distinct values above `0x100`. -/
def sampleFormat : PixelFormat → Int
  | .RGBA_8888 => 1
  | .RGBX_8888 => 2
  | .RGB_888 => 3
  | .RGB_565 => 4
  | .BGRA_8888 => 5
  | .RGBA_5551 => 6
  | .RGBA_4444 => 7
  | .RAW_SENSOR => 32
  | .BLOB => 33
  | .YCrCb_420_SP => 17
  | .YV12 => 842094169
  | .YCbCr_420_SP => 261
  | .YCbCr_420_SP_TILED => 274
  | .EXYNOS_YV12 => 284
  | .EXYNOS_YCrCb_420_SP => 285

/-- A sample set of header constants (those of a Linux/Android ARM target with 4 KiB
pages: `EINVAL` 22, `GRALLOC_USAGE_PROTECTED` 0x4000, `GRALLOC_USAGE_SW_READ_MASK` 0xF,
`GRALLOC_USAGE_SW_READ_OFTEN` 0x3, `ION_HEAP_TYPE_SYSTEM` 0, `ION_FLAG_CACHED` 1). -/
def sampleHeaders : Headers :=
  { EINVAL := 22
    PAGE_SHIFT := 12
    GRALLOC_USAGE_PROTECTED := 16384
    GRALLOC_USAGE_SW_READ_MASK := 15
    GRALLOC_USAGE_SW_READ_OFTEN := 3
    ION_HEAP_TYPE_SYSTEM := 0
    ION_HEAP_SYSTEM_MASK := 1
    ION_FLAG_CACHED := 1
    HAL_PIXEL_FORMAT := sampleFormat }

/-- A pool service that succeeds every time, handing out descriptors 10, 11, 12, ...,
next to a mapping collaborator that succeeds. -/
def goodEnv : Collaborators :=
  { ion_alloc_fd := fun n _ => { err := 0, fd := 10 + n }
    close := fun _ => 0
    grallocMap := fun _ => 0
    validate := fun _ => 0 }

/-- A pool service that succeeds on its first `k` requests (descriptors 10, 11, ...)
and refuses every later one with the status `e`, leaving `-7` in the out-parameter;
mapping fails with the status `m`. -/
def scriptedEnv (k : Nat) (e m : Int) : Collaborators :=
  { ion_alloc_fd := fun n _ => if n < k then { err := 0, fd := 10 + n } else { err := e, fd := -7 }
    close := fun _ => -1
    grallocMap := fun _ => m
    validate := fun _ => 0 }

/-- A pool service that succeeds every time (descriptors 10, 11, 12, ...), next to a
mapping collaborator that fails with the status `m`. -/
def mapFailEnv (m : Int) : Collaborators :=
  { ion_alloc_fd := fun n _ => { err := 0, fd := 10 + n }
    close := fun _ => 0
    grallocMap := fun _ => m
    validate := fun _ => 0 }

/-- An arbitrary content for the uninitialised variables of `gralloc_alloc`. -/
def junk : Outs :=
  { hnd := private_handle_t.new1 (-1) 0 0 0 0 0 0 0, stride := 0 }

/-! ## Arithmetic lemmas -/

theorem testBit_div_two_pow (y k j : Nat) : (y / 2 ^ k).testBit j = y.testBit (k + j) := by
  rw [← Nat.shiftRight_eq_div_pow, Nat.testBit_shiftRight]

theorem and_not_low_mask (y k : Nat) (hk : k ≤ 32) (hy : y < 2 ^ 32) :
    y &&& ((2 ^ 32 - 1) ^^^ (2 ^ k - 1)) = y / 2 ^ k * 2 ^ k := by
  apply Nat.eq_of_testBit_eq
  intro i
  rw [Nat.mul_comm, Nat.testBit_mul_pow_two]
  simp only [Nat.testBit_and, Nat.testBit_xor, Nat.testBit_two_pow_sub_one, testBit_div_two_pow]
  by_cases h1 : k ≤ i
  · have e : k + (i - k) = i := by omega
    rw [e]
    by_cases h2 : i < 32
    · have : ¬ i < k := by omega
      simp [h1, h2, this]
    · have hlt : y < 2 ^ i := lt_of_lt_of_le hy (Nat.pow_le_pow_right (by decide) (by omega))
      have hf : y.testBit i = false := Nat.testBit_lt_two_pow hlt
      simp [hf]
  · have : i < k := by omega
    have : i < 32 := by omega
    simp [*]

theorem pow_le_of_le_31 (k : Nat) (hk : k ≤ 31) : 2 ^ k ≤ 2147483648 := by
  have h := Nat.pow_le_pow_right (show 0 < 2 by decide) hk
  norm_num at h
  exact h

/-- On a power of two, and when the addition does not wrap, `ALIGN` rounds up. -/
theorem ALIGN_eq_round_up (x k : Nat) (hk : k ≤ 31) (hx : x + (2 ^ k - 1) < 4294967296) :
    ALIGN x (2 ^ k) = round_up x (2 ^ k) := by
  unfold ALIGN round_up
  have hp := pow_le_of_le_31 k hk
  have h1 : (x + (2 ^ k - 1)) % 4294967296 = x + (2 ^ k - 1) := Nat.mod_eq_of_lt hx
  have h2 : (2 ^ k - 1) % 4294967296 = 2 ^ k - 1 := Nat.mod_eq_of_lt (by omega)
  rw [h1, h2]
  have := and_not_low_mask (x + (2 ^ k - 1)) k (by omega) (by norm_num; exact hx)
  simpa using this

theorem le_round_up (x a : Nat) (ha : 0 < a) : x ≤ round_up x a := by
  unfold round_up
  have h1 := Nat.div_add_mod (x + (a - 1)) a
  have h2 := Nat.mod_lt (x + (a - 1)) ha
  have h3 : a * ((x + (a - 1)) / a) = (x + (a - 1)) / a * a := Nat.mul_comm _ _
  omega

theorem round_up_le (x a : Nat) : round_up x a ≤ x + (a - 1) := by
  unfold round_up
  exact Nat.div_mul_le_self _ _

theorem dvd_round_up (x a : Nat) : a ∣ round_up x a := by
  unfold round_up
  exact Nat.dvd_mul_left _ _

theorem u32_natCast (n : Nat) (h : n < 4294967296) : u32 (n : Int) = n := by
  unfold u32
  have : ((n : Int) % 4294967296) = (n : Int) := Int.emod_eq_of_lt (by omega) (by omega)
  rw [this]; simp

theorem s32_of_lt (p : Nat) (h : p < 2147483648) : s32 p = (p : Int) := by
  unfold s32
  have : p % 4294967296 = p := Nat.mod_eq_of_lt (by omega)
  rw [this]; simp [h]

theorem imul_natCast (a b : Nat) (h : a * b < 2147483648) :
    imul (a : Int) (b : Int) = ((a * b : Nat) : Int) := by
  unfold imul
  have : (a : Int) * (b : Int) = ((a * b : Nat) : Int) := by push_cast; ring
  rw [this, u32_natCast _ (by omega), s32_of_lt _ h]

theorem idiv_natCast (a b : Nat) (h : a < 2147483648) :
    idiv (a : Int) (b : Int) = ((a / b : Nat) : Int) := by
  unfold idiv
  have : Int.tdiv (a : Int) (b : Int) = ((a / b : Nat) : Int) := by
    simp [Int.tdiv]
  have hle : a / b ≤ a := Nat.div_le_self _ _
  rw [this, u32_natCast _ (by omega), s32_of_lt _ (by omega)]

theorem ALIGN_int_natCast (n k : Nat) (hk : k ≤ 31) (h : n + (2 ^ k - 1) < 2147483648) :
    ALIGN_int (n : Int) (2 ^ k) = ((round_up n (2 ^ k) : Nat) : Int) := by
  unfold ALIGN_int
  have hr := round_up_le n (2 ^ k)
  rw [u32_natCast _ (by omega), ALIGN_eq_round_up _ _ hk (by omega), s32_of_lt _ (by omega)]

theorem Headers.WF.tag_eq_iff {H : Headers} (hH : H.WF) (a b : PixelFormat) :
    H.HAL_PIXEL_FORMAT a = H.HAL_PIXEL_FORMAT b ↔ a = b :=
  ⟨hH.format_inj a b, fun h => by rw [h]⟩

theorem sampleHeaders_wf : sampleHeaders.WF where
  einval_pos := by decide
  page_shift_le := by decide
  format_inj := by
    intro a b
    cases a <;> cases b <;> simp [sampleHeaders, sampleFormat]

theorem rgb_bpp_tag {H : Headers} (hH : H.WF) (p : PixelFormat) :
    rgb_bpp H (H.HAL_PIXEL_FORMAT p) = (packed_bpp p).map Int.ofNat := by
  cases p <;> simp [rgb_bpp, packed_bpp, hH.tag_eq_iff]

theorem rgb_bpp_not_packed {H : Headers} (hH : H.WF) (p : PixelFormat)
    (hp : packed_bpp p = none) : rgb_bpp H (H.HAL_PIXEL_FORMAT p) = none := by
  rw [rgb_bpp_tag hH, hp]; rfl

theorem packed_bpp_pos {p : PixelFormat} {b : Nat} (h : packed_bpp p = some b) :
    1 ≤ b ∧ b ≤ 4 := by
  cases p <;> simp [packed_bpp] at h <;> omega

theorem gralloc_alloc_rgb_packed {H : Headers} (hH : H.WF) (env : Collaborators)
    (ionfd : Int) (w h : Nat) (p : PixelFormat) (b : Nat) (usage ion_flags : Nat) (o : Outs)
    (hb : packed_bpp p = some b)
    (hw : w * b + 15 < 2147483648) (hh : h + 15 < 2147483648)
    (hsize : round_up (w * b) 16 * round_up h 16 + (H.PAGE_SIZE - 1) < 4294967296) :
    gralloc_alloc_rgb H env ionfd w h (H.HAL_PIXEL_FORMAT p) usage ion_flags o [] =
      (let req : IonRequest :=
        { ionfd := ionfd, len := round_up (round_up (w * b) 16 * round_up h 16) H.PAGE_SIZE,
          align := 0, heap_mask := _select_heap H usage, flags := ion_flags }
       let reply := env.ion_alloc_fd 0 req
       let hnd := private_handle_t.new1 reply.fd req.len usage w h (H.HAL_PIXEL_FORMAT p)
          ((round_up (w * b) 16 / b : Nat) : Int) ((round_up h 16 : Nat) : Int)
       { err := reply.err, outs := { hnd := hnd, stride := ((round_up (w * b) 16 / b : Nat) : Int) },
         trace := [Event.ion_alloc_fd req reply, Event.new_handle hnd] }) := by
  have hbpos := packed_bpp_pos hb
  have e1 : imul (w : Int) ((b : Nat) : Int) = ((w * b : Nat) : Int) := imul_natCast w b (by omega)
  have e2 : ALIGN_int ((w * b : Nat) : Int) 16 = ((round_up (w * b) 16 : Nat) : Int) :=
    ALIGN_int_natCast (w * b) 4 (by omega) (by norm_num; omega)
  have e3 : ALIGN_int (h : Int) 16 = ((round_up h 16 : Nat) : Int) :=
    ALIGN_int_natCast h 4 (by omega) (by norm_num; omega)
  have r1 := round_up_le (w * b) 16
  have r2 := round_up_le h 16
  have e4 : u32 ((round_up (w * b) 16 : Nat) : Int) = round_up (w * b) 16 :=
    u32_natCast _ (by omega)
  have e5 : u32 ((round_up h 16 : Nat) : Int) = round_up h 16 := u32_natCast _ (by omega)
  have e6 : umul (round_up (w * b) 16) (round_up h 16) = round_up (w * b) 16 * round_up h 16 :=
    Nat.mod_eq_of_lt (by omega)
  have e7 : u32 ((b : Nat) : Int) = b := u32_natCast _ (by omega)
  have hdiv : round_up (w * b) 16 / b ≤ round_up (w * b) 16 := Nat.div_le_self _ _
  have e8 : s32 (round_up (w * b) 16 / b) = ((round_up (w * b) 16 / b : Nat) : Int) :=
    s32_of_lt _ (by omega)
  have e9 : ALIGN (round_up (w * b) 16 * round_up h 16) H.PAGE_SIZE
      = round_up (round_up (w * b) 16 * round_up h 16) H.PAGE_SIZE :=
    ALIGN_eq_round_up _ _ hH.page_shift_le hsize
  simp only [gralloc_alloc_rgb, rgb_bpp_tag hH, hb, Option.map, Int.ofNat_eq_coe, e1, e2, e3, e4,
    e5, e6, e7, e8, e9, call_ion_alloc_fd, requests, List.filterMap_nil, List.length_nil,
    List.nil_append, List.singleton_append]

/-- C1 (as amended): for every packed format with bytes-per-pixel `b`, every width `w`
and height `h` with `w*b + 15 < 2^31`, `h + 15 < 2^31` and
`round_up(w*b,16) * round_up(h,16) + PAGE_SIZE - 1 < 2^32`, when the pool service and
the mapping collaborator succeed, `gralloc_alloc` makes exactly one pool request, of
size `round_up(round_up(w*b,16) * round_up(h,16), PAGE_SIZE)`, returns 0, writes the
stride `round_up(w*b,16) / b` to the stride output, and the handle records that size,
that stride and the vertical stride `round_up(h,16)`. -/
theorem C1_packed_allocation (H : Headers) (hH : H.WF) (env : Collaborators)
    (ionfd : Int) (uninit : Outs) (w h : Nat) (p : PixelFormat) (b : Nat) (usage : Nat)
    (slotH : private_handle_t) (slotS : Int)
    (hb : packed_bpp p = some b)
    (hw : w * b + 15 < 2147483648) (hh : h + 15 < 2147483648)
    (hsize : round_up (w * b) 16 * round_up h 16 + (H.PAGE_SIZE - 1) < 4294967296)
    (hpool : (env.ion_alloc_fd 0
      { ionfd := ionfd, len := round_up (round_up (w * b) 16 * round_up h 16) H.PAGE_SIZE,
        align := 0, heap_mask := _select_heap H usage, flags := ion_flags_of H usage }).err = 0)
    (hmap : ∀ hnd, env.grallocMap hnd = 0) :
    gralloc_alloc H env ionfd uninit w h (H.HAL_PIXEL_FORMAT p) usage (some slotH) (some slotS) =
      (let req : IonRequest :=
        { ionfd := ionfd, len := round_up (round_up (w * b) 16 * round_up h 16) H.PAGE_SIZE,
          align := 0, heap_mask := _select_heap H usage, flags := ion_flags_of H usage }
       let reply := env.ion_alloc_fd 0 req
       let hnd : private_handle_t :=
        { fd := reply.fd, fd1 := -1, fd2 := -1,
          size := round_up (round_up (w * b) 16 * round_up h 16) H.PAGE_SIZE,
          flags := usage, width := w, height := h, format := H.HAL_PIXEL_FORMAT p,
          stride := ((round_up (w * b) 16 / b : Nat) : Int),
          vstride := ((round_up h 16 : Nat) : Int) }
       { ret := 0, pHandle := some hnd,
         pStride := some ((round_up (w * b) 16 / b : Nat) : Int),
         trace := [Event.ion_alloc_fd req reply, Event.new_handle hnd,
                   Event.grallocMap hnd 0] }) := by
  have hrgb := gralloc_alloc_rgb_packed hH env ionfd w h p b usage (ion_flags_of H usage) uninit
    hb hw hh hsize
  simp only [gralloc_alloc, hrgb, hpool, hmap, private_handle_t.new1]
  simp

/-- C1, the scenario of the specification: width 100, height 100, `RGBA_8888`, usage 0
give stride 100, vertical stride 112 and size `round_up(44800, PAGE_SIZE)`. -/
theorem C1_packed_allocation_witness :
    (gralloc_alloc sampleHeaders goodEnv 3 junk 100 100 (sampleFormat .RGBA_8888) 0
        (some junk.hnd) (some 0)).pStride = some 100
    ∧ (gralloc_alloc sampleHeaders goodEnv 3 junk 100 100 (sampleFormat .RGBA_8888) 0
        (some junk.hnd) (some 0)).pHandle
      = some { fd := 10, fd1 := -1, fd2 := -1, size := round_up 44800 sampleHeaders.PAGE_SIZE,
               flags := 0, width := 100, height := 100, format := 1, stride := 100,
               vstride := 112 } := by
  have h := C1_packed_allocation sampleHeaders sampleHeaders_wf goodEnv 3 junk 100 100
    .RGBA_8888 4 0 junk.hnd 0 rfl (by decide) (by decide) (by decide) rfl (fun _ => rfl)
  constructor
  · exact congrArg AllocResult.pStride h
  · exact congrArg AllocResult.pHandle h

/-- C1 fails as stated: width 100, height `2^31 - 1` and `RGBA_8888` meet the claim's
condition `w*b + 15 < 2^31`, the pool service and the mapping succeed, and yet the one
request asks for 0 bytes (not `round_up(400 * 2^31, PAGE_SIZE)`) and the handle records
the size 0 and the vertical stride `-2^31` (not `round_up(h,16) = 2^31`). -/
theorem C1_counterexample :
    packed_bpp .RGBA_8888 = some 4 ∧ 100 * 4 + 15 < 2147483648
    ∧ (gralloc_alloc sampleHeaders goodEnv 3 junk 100 2147483647 (sampleFormat .RGBA_8888) 0
        (some junk.hnd) (some 0)).ret = 0
    ∧ (requests (gralloc_alloc sampleHeaders goodEnv 3 junk 100 2147483647
        (sampleFormat .RGBA_8888) 0 (some junk.hnd) (some 0)).trace).map IonRequest.len = [0]
    ∧ (gralloc_alloc sampleHeaders goodEnv 3 junk 100 2147483647 (sampleFormat .RGBA_8888) 0
        (some junk.hnd) (some 0)).pHandle
      = some { fd := 10, fd1 := -1, fd2 := -1, size := 0, flags := 0, width := 100,
               height := 2147483647, format := 1, stride := 100, vstride := -2147483648 }
    ∧ round_up (round_up (100 * 4) 16 * round_up 2147483647 16) sampleHeaders.PAGE_SIZE
      = 858993459200
    ∧ round_up 2147483647 16 = 2147483648 := by
  decide

theorem gralloc_alloc_rgb_shape {H : Headers} (hH : H.WF) (env : Collaborators)
    (ionfd w h : Int) (p : PixelFormat) (b : Nat) (usage ion_flags : Nat) (o : Outs)
    (tr : List Event) (hb : packed_bpp p = some b) :
    ∃ size stride vstride,
      gralloc_alloc_rgb H env ionfd w h (H.HAL_PIXEL_FORMAT p) usage ion_flags o tr =
        { err := (env.ion_alloc_fd (requests tr).length
            { ionfd := ionfd, len := size, align := 0, heap_mask := _select_heap H usage,
              flags := ion_flags }).err,
          outs :=
            { hnd := private_handle_t.new1 (env.ion_alloc_fd (requests tr).length
                { ionfd := ionfd, len := size, align := 0, heap_mask := _select_heap H usage,
                  flags := ion_flags }).fd size usage w h (H.HAL_PIXEL_FORMAT p) stride vstride,
              stride := stride },
          trace := tr ++ [Event.ion_alloc_fd
              { ionfd := ionfd, len := size, align := 0, heap_mask := _select_heap H usage,
                flags := ion_flags }
              (env.ion_alloc_fd (requests tr).length
                { ionfd := ionfd, len := size, align := 0, heap_mask := _select_heap H usage,
                  flags := ion_flags }),
            Event.new_handle (private_handle_t.new1 (env.ion_alloc_fd (requests tr).length
                { ionfd := ionfd, len := size, align := 0, heap_mask := _select_heap H usage,
                  flags := ion_flags }).fd size usage w h (H.HAL_PIXEL_FORMAT p) stride vstride)] } := by
  refine ⟨ALIGN (umul (u32 (ALIGN_int (imul w b) 16)) (u32 (ALIGN_int h 16))) H.PAGE_SIZE,
    s32 (u32 (ALIGN_int (imul w b) 16) / u32 b), ALIGN_int h 16, ?_⟩
  simp only [gralloc_alloc_rgb, rgb_bpp_tag hH, hb, Option.map, call_ion_alloc_fd,
    List.append_assoc, List.singleton_append, Int.ofNat_eq_coe]

theorem gralloc_alloc_rgb_not_packed {H : Headers} (env : Collaborators)
    (ionfd w h format : Int) (usage ion_flags : Nat) (o : Outs) (tr : List Event)
    (hf : rgb_bpp H format = none) :
    gralloc_alloc_rgb H env ionfd w h format usage ion_flags o tr =
      { err := -H.EINVAL, outs := o, trace := tr } := by
  simp only [gralloc_alloc_rgb, hf]

theorem gralloc_alloc_yuv_packed {H : Headers} (hH : H.WF) (env : Collaborators)
    (ionfd w h : Int) (p : PixelFormat) (b : Nat) (usage ion_flags : Nat) (o : Outs)
    (tr : List Event) (hb : packed_bpp p = some b) :
    gralloc_alloc_yuv H env ionfd w h (H.HAL_PIXEL_FORMAT p) usage ion_flags o tr =
      { err := -H.EINVAL, outs := { o with stride := ALIGN_int w 16 }, trace := tr } := by
  cases p <;> simp [packed_bpp] at hb <;> simp [gralloc_alloc_yuv, hH.tag_eq_iff]

theorem neg_einval_ne_zero {H : Headers} (hH : H.WF) : -H.EINVAL ≠ 0 := by
  have := hH.einval_pos
  omega

/-- C2 fails as stated: the pool service refuses the one request of an `RGBA_8888`
allocation with the status -12, and `gralloc_alloc` returns -22 (`-EINVAL`). -/
theorem C2_counterexample :
    packed_bpp .RGBA_8888 = some 4
    ∧ (requests (gralloc_alloc sampleHeaders (scriptedEnv 0 (-12) 0) 3 junk 100 100
        (sampleFormat .RGBA_8888) 0 (some junk.hnd) (some 0)).trace).length = 1
    ∧ (gralloc_alloc sampleHeaders (scriptedEnv 0 (-12) 0) 3 junk 100 100
        (sampleFormat .RGBA_8888) 0 (some junk.hnd) (some 0)).ret = -22
    ∧ (gralloc_alloc sampleHeaders (scriptedEnv 0 (-12) 0) 3 junk 100 100
        (sampleFormat .RGBA_8888) 0 (some junk.hnd) (some 0)).ret ≠ -12 := by
  decide

/-- C2 (as amended): for every packed format and every error code `e ≠ 0`, if the pool
service refuses the single allocation request with `e`, `gralloc_alloc` makes no other
pool request and returns the status of the planar fall-back, `-EINVAL` (the last
error); it returns `e` only when `e` is `-EINVAL`. -/
theorem C2_packed_refusal_returns_einval (H : Headers) (hH : H.WF) (env : Collaborators)
    (ionfd : Int) (uninit : Outs) (w h : Int) (p : PixelFormat) (b : Nat) (usage : Nat)
    (slotH : private_handle_t) (slotS : Int) (e : Int)
    (hb : packed_bpp p = some b) (he : e ≠ 0)
    (hrefuse : ∀ req, (env.ion_alloc_fd 0 req).err = e) :
    (gralloc_alloc H env ionfd uninit w h (H.HAL_PIXEL_FORMAT p) usage
        (some slotH) (some slotS)).ret = -H.EINVAL
    ∧ (requests (gralloc_alloc H env ionfd uninit w h (H.HAL_PIXEL_FORMAT p) usage
        (some slotH) (some slotS)).trace).length = 1 := by
  obtain ⟨size, stride, vstride, hrgb⟩ := gralloc_alloc_rgb_shape hH env ionfd w h p b usage
    (ion_flags_of H usage) uninit [] hb
  have hne := neg_einval_ne_zero hH
  simp [gralloc_alloc, hrgb, hrefuse, he, gralloc_alloc_yuv_packed hH env ionfd w h p b usage _ _ _ hb,
    hne, requests, Event.request?]

/-- C2, an instance: `RGB_565`, the request refused with -12; the call returns -22. -/
theorem C2_packed_refusal_returns_einval_witness :
    (gralloc_alloc sampleHeaders (scriptedEnv 0 (-12) 0) 3 junk 640 480
        (sampleFormat .RGB_565) 0 (some junk.hnd) (some 0)).ret = -22
    ∧ (requests (gralloc_alloc sampleHeaders (scriptedEnv 0 (-12) 0) 3 junk 640 480
        (sampleFormat .RGB_565) 0 (some junk.hnd) (some 0)).trace).length = 1 :=
  C2_packed_refusal_returns_einval sampleHeaders sampleHeaders_wf (scriptedEnv 0 (-12) 0) 3 junk
    640 480 .RGB_565 2 0 junk.hnd 0 (-12) rfl (by decide) (fun _ => rfl)

/-- C3, the code at the failing input: the pool service refuses the request of a
100 x 100 `RGBA_8888` buffer with -12; `gralloc_alloc_rgb` returns -12, but it has
constructed a handle (around the indeterminate descriptor -7) and overwritten the
handle output with it. -/
theorem C3_handle_constructed_on_refusal :
    (gralloc_alloc_rgb sampleHeaders (scriptedEnv 0 (-12) 0) 3 100 100
        (sampleFormat .RGBA_8888) 0 0 junk []).err = -12
    ∧ constructed (gralloc_alloc_rgb sampleHeaders (scriptedEnv 0 (-12) 0) 3 100 100
        (sampleFormat .RGBA_8888) 0 0 junk []).trace
      = [{ fd := -7, fd1 := -1, fd2 := -1, size := 45056, flags := 0, width := 100,
           height := 100, format := 1, stride := 100, vstride := 112 }]
    ∧ (gralloc_alloc_rgb sampleHeaders (scriptedEnv 0 (-12) 0) 3 100 100
        (sampleFormat .RGBA_8888) 0 0 junk []).outs.hnd ≠ junk.hnd := by
  decide

theorem gralloc_alloc_yuv_three {H : Headers} (env : Collaborators)
    (ionfd w h : Int) (usage ion_flags : Nat) (o : Outs) (tr : List Event) :
    gralloc_alloc_yuv H env ionfd w h (H.HAL_PIXEL_FORMAT .EXYNOS_YV12) usage ion_flags o tr =
      gralloc_alloc_yuv_planes env ionfd w h (H.HAL_PIXEL_FORMAT .EXYNOS_YV12) usage ion_flags
        (_select_heap H usage)
        (umul (u32 (ALIGN_int h 16)) (u32 (ALIGN_int w 16)))
        (umul (u32 (ALIGN_int h 16) / 2) (u32 (ALIGN_int (idiv (ALIGN_int w 16) 2) 16)))
        3 (u32 (ALIGN_int h 16)) { o with stride := ALIGN_int w 16 } tr := by
  simp only [gralloc_alloc_yuv, if_true]

theorem gralloc_alloc_yuv_two {H : Headers} (hH : H.WF) (env : Collaborators)
    (ionfd w h : Int) (p : PixelFormat) (usage ion_flags : Nat) (o : Outs) (tr : List Event)
    (hp : plane_count p = 2) :
    gralloc_alloc_yuv H env ionfd w h (H.HAL_PIXEL_FORMAT p) usage ion_flags o tr =
      gralloc_alloc_yuv_planes env ionfd w h (H.HAL_PIXEL_FORMAT p) usage ion_flags
        (_select_heap H usage)
        (umul (u32 (ALIGN_int h 32)) (u32 (ALIGN_int w 16)))
        (umul (u32 (ALIGN_int (idiv h 2) 32)) (u32 (ALIGN_int w 16)))
        2 (u32 (ALIGN_int h 32)) { o with stride := ALIGN_int w 16 } tr := by
  cases p <;> simp [plane_count] at hp <;> simp [gralloc_alloc_yuv, hH.tag_eq_iff]

/-- The roll-back of lines 240 to 264: when the `k`-th plane request is the first to be
refused, `k` requests were made, the descriptors handed out are released, latest first,
and nothing is constructed. -/
theorem gralloc_alloc_yuv_planes_refused (env : Collaborators) (ionfd w h format : Int)
    (usage ion_flags heap_mask luma_size chroma_size planes luma_vstride : Nat) (o : Outs)
    (k : Nat) (e : Int) (hplanes : planes = 2 ∨ planes = 3) (hk1 : 1 ≤ k) (hk2 : k ≤ planes)
    (hsucc : ∀ i, i + 1 < k → ∀ req, (env.ion_alloc_fd i req).err = 0)
    (hfail : ∀ req, (env.ion_alloc_fd (k - 1) req).err = e) (he : e ≠ 0) :
    (gralloc_alloc_yuv_planes env ionfd w h format usage ion_flags heap_mask luma_size
        chroma_size planes luma_vstride o []).err = e
    ∧ (requests (gralloc_alloc_yuv_planes env ionfd w h format usage ion_flags heap_mask
        luma_size chroma_size planes luma_vstride o []).trace).length = k
    ∧ (handedOut (gralloc_alloc_yuv_planes env ionfd w h format usage ion_flags heap_mask
        luma_size chroma_size planes luma_vstride o []).trace).length = k - 1
    ∧ released (gralloc_alloc_yuv_planes env ionfd w h format usage ion_flags heap_mask
        luma_size chroma_size planes luma_vstride o []).trace
      = (handedOut (gralloc_alloc_yuv_planes env ionfd w h format usage ion_flags heap_mask
        luma_size chroma_size planes luma_vstride o []).trace).reverse
    ∧ constructed (gralloc_alloc_yuv_planes env ionfd w h format usage ion_flags heap_mask
        luma_size chroma_size planes luma_vstride o []).trace = []
    ∧ (gralloc_alloc_yuv_planes env ionfd w h format usage ion_flags heap_mask luma_size
        chroma_size planes luma_vstride o []).outs = o := by
  have hk : k = 1 ∨ k = 2 ∨ (k = 3 ∧ planes = 3) := by omega
  rcases hk with rfl | rfl | ⟨rfl, rfl⟩
  · simp [gralloc_alloc_yuv_planes, call_ion_alloc_fd, requests, handedOut, released,
      constructed, Event.request?, Event.handedOut?, Event.released?, Event.constructed?,
      hfail, he]
  · have h0 : ∀ req, (env.ion_alloc_fd 0 req).err = 0 := hsucc 0 (by omega)
    simp [gralloc_alloc_yuv_planes, call_ion_alloc_fd, call_close, requests, handedOut,
      released, constructed, Event.request?, Event.handedOut?, Event.released?,
      Event.constructed?, hfail, he, h0]
  · have h0 : ∀ req, (env.ion_alloc_fd 0 req).err = 0 := hsucc 0 (by omega)
    have h1 : ∀ req, (env.ion_alloc_fd 1 req).err = 0 := hsucc 1 (by omega)
    simp [gralloc_alloc_yuv_planes, call_ion_alloc_fd, call_close, requests, handedOut,
      released, constructed, Event.request?, Event.handedOut?, Event.released?,
      Event.constructed?, hfail, he, h0, h1]

/-- C4: for every multi-plane format (three planes for `EXYNOS_YV12`, two for
`EXYNOS_YCrCb_420_SP`, `YCbCr_420_SP`, `YCbCr_420_SP_TILED`) and every `k` from 1 to the
plane count: if the pool service succeeds on the plane requests before the `k`-th and
refuses the `k`-th with `e`, then `gralloc_alloc_yuv` returns `e`, has made exactly `k`
pool requests, has released exactly the `k - 1` descriptors handed out in the call
(each once, latest first), has constructed no handle and leaves the handle output as
it was. -/
theorem C4_planar_rollback (H : Headers) (hH : H.WF) (env : Collaborators)
    (ionfd w h : Int) (p : PixelFormat) (usage ion_flags : Nat) (o : Outs)
    (k : Nat) (e : Int) (hp : p.multiPlane) (hk1 : 1 ≤ k) (hk2 : k ≤ plane_count p)
    (hsucc : ∀ i, i + 1 < k → ∀ req, (env.ion_alloc_fd i req).err = 0)
    (hfail : ∀ req, (env.ion_alloc_fd (k - 1) req).err = e) (he : e ≠ 0) :
    (gralloc_alloc_yuv H env ionfd w h (H.HAL_PIXEL_FORMAT p) usage ion_flags o []).err = e
    ∧ (requests (gralloc_alloc_yuv H env ionfd w h (H.HAL_PIXEL_FORMAT p) usage ion_flags
        o []).trace).length = k
    ∧ (handedOut (gralloc_alloc_yuv H env ionfd w h (H.HAL_PIXEL_FORMAT p) usage ion_flags
        o []).trace).length = k - 1
    ∧ released (gralloc_alloc_yuv H env ionfd w h (H.HAL_PIXEL_FORMAT p) usage ion_flags
        o []).trace
      = (handedOut (gralloc_alloc_yuv H env ionfd w h (H.HAL_PIXEL_FORMAT p) usage ion_flags
        o []).trace).reverse
    ∧ constructed (gralloc_alloc_yuv H env ionfd w h (H.HAL_PIXEL_FORMAT p) usage ion_flags
        o []).trace = []
    ∧ (gralloc_alloc_yuv H env ionfd w h (H.HAL_PIXEL_FORMAT p) usage ion_flags
        o []).outs.hnd = o.hnd := by
  have hcount : plane_count p = 3 ∨ plane_count p = 2 := by
    have : 2 ≤ plane_count p := hp
    cases p <;> simp [plane_count] at this ⊢
  rcases hcount with h3 | h2
  · have hp3 : p = .EXYNOS_YV12 := by cases p <;> simp [plane_count] at h3 ⊢
    subst hp3
    rw [gralloc_alloc_yuv_three]
    obtain ⟨a, b, c, d, e', f⟩ := gralloc_alloc_yuv_planes_refused env ionfd w h
      (H.HAL_PIXEL_FORMAT .EXYNOS_YV12) usage ion_flags (_select_heap H usage)
      (umul (u32 (ALIGN_int h 16)) (u32 (ALIGN_int w 16)))
      (umul (u32 (ALIGN_int h 16) / 2) (u32 (ALIGN_int (idiv (ALIGN_int w 16) 2) 16)))
      3 (u32 (ALIGN_int h 16)) { o with stride := ALIGN_int w 16 } k e (Or.inr rfl) hk1
      (by simpa [plane_count] using hk2) hsucc hfail he
    exact ⟨a, b, c, d, e', by rw [f]⟩
  · rw [gralloc_alloc_yuv_two hH env ionfd w h p usage ion_flags o [] h2]
    obtain ⟨a, b, c, d, e', f⟩ := gralloc_alloc_yuv_planes_refused env ionfd w h
      (H.HAL_PIXEL_FORMAT p) usage ion_flags (_select_heap H usage)
      (umul (u32 (ALIGN_int h 32)) (u32 (ALIGN_int w 16)))
      (umul (u32 (ALIGN_int (idiv h 2) 32)) (u32 (ALIGN_int w 16)))
      2 (u32 (ALIGN_int h 32)) { o with stride := ALIGN_int w 16 } k e (Or.inl rfl) hk1
      (by rw [h2] at hk2; exact hk2) hsucc hfail he
    exact ⟨a, b, c, d, e', by rw [f]⟩

/-- C4, an instance: `EXYNOS_YV12`, the third plane request refused with -12: three
requests, the descriptors 11 and 10 released, no handle. -/
theorem C4_planar_rollback_witness :
    (gralloc_alloc_yuv sampleHeaders (scriptedEnv 2 (-12) 0) 3 100 100
        (sampleFormat .EXYNOS_YV12) 0 0 junk []).err = -12
    ∧ released (gralloc_alloc_yuv sampleHeaders (scriptedEnv 2 (-12) 0) 3 100 100
        (sampleFormat .EXYNOS_YV12) 0 0 junk []).trace = [11, 10]
    ∧ (requests (gralloc_alloc_yuv sampleHeaders (scriptedEnv 2 (-12) 0) 3 100 100
        (sampleFormat .EXYNOS_YV12) 0 0 junk []).trace).length = 3 := by
  have h := C4_planar_rollback sampleHeaders sampleHeaders_wf (scriptedEnv 2 (-12) 0) 3 100 100
    .EXYNOS_YV12 0 0 junk 3 (-12) (show 2 ≤ plane_count .EXYNOS_YV12 by decide) (by decide)
    (by decide)
    (fun i hi req => by
      have : i < 2 := by omega
      simp [scriptedEnv, this])
    (fun req => by simp [scriptedEnv]) (by decide)
  exact ⟨h.1, by decide, h.2.1⟩

theorem rgb_bpp_unrecognized {H : Headers} (format : Int)
    (hf : ∀ p, format ≠ H.HAL_PIXEL_FORMAT p) : rgb_bpp H format = none := by
  simp [rgb_bpp, hf]

theorem gralloc_alloc_yuv_unrecognized {H : Headers} (env : Collaborators)
    (ionfd w h format : Int) (usage ion_flags : Nat) (o : Outs) (tr : List Event)
    (hf : ∀ p, format ≠ H.HAL_PIXEL_FORMAT p) :
    gralloc_alloc_yuv H env ionfd w h format usage ion_flags o tr =
      { err := -H.EINVAL, outs := { o with stride := ALIGN_int w 16 }, trace := tr } := by
  simp [gralloc_alloc_yuv, hf]

theorem gralloc_alloc_unrecognized {H : Headers} (hH : H.WF) (env : Collaborators)
    (ionfd : Int) (uninit : Outs) (w h format : Int) (usage : Nat)
    (pHandle : Option private_handle_t) (pStride : Option Int)
    (hf : ∀ p, format ≠ H.HAL_PIXEL_FORMAT p) :
    gralloc_alloc H env ionfd uninit w h format usage pHandle pStride =
      { ret := -H.EINVAL, pHandle := pHandle, pStride := pStride, trace := [] } := by
  have hne := neg_einval_ne_zero hH
  by_cases hnull : pHandle = none ∨ pStride = none
  · simp [gralloc_alloc, hnull]
  · simp [gralloc_alloc, hnull, gralloc_alloc_rgb_not_packed env ionfd w h format usage _ _ _
      (rgb_bpp_unrecognized format hf), hne,
      gralloc_alloc_yuv_unrecognized env ionfd w h format usage _ _ _ hf]

/-- C7: for every format tag that is in neither catalog and every width, height and
usage, `gralloc_alloc` returns `-EINVAL`, makes no pool request and no mapping call (its
trace is empty), and leaves both output slots as they were. -/
theorem C7_unrecognized_format (H : Headers) (hH : H.WF) (env : Collaborators)
    (ionfd : Int) (uninit : Outs) (w h format : Int) (usage : Nat)
    (pHandle : Option private_handle_t) (pStride : Option Int)
    (hf : ∀ p, format ≠ H.HAL_PIXEL_FORMAT p) :
    gralloc_alloc H env ionfd uninit w h format usage pHandle pStride =
      { ret := -H.EINVAL, pHandle := pHandle, pStride := pStride, trace := [] } :=
  gralloc_alloc_unrecognized hH env ionfd uninit w h format usage pHandle pStride hf

/-- C7, the scenario of the specification: the format 999 is in neither catalog. -/
theorem C7_unrecognized_format_witness :
    gralloc_alloc sampleHeaders goodEnv 3 junk 100 100 999 0 (some junk.hnd) (some 0) =
      { ret := -22, pHandle := some junk.hnd, pStride := some 0, trace := [] } :=
  C7_unrecognized_format sampleHeaders sampleHeaders_wf goodEnv 3 junk 100 100 999 0
    (some junk.hnd) (some 0) (by intro p; cases p <;> decide)

/-- C8: for every handle that passes validation, `gralloc_free` calls `grallocUnmap`
exactly once, first, then releases exactly the backing resources the handle holds
(`fd`, and `fd1`, `fd2` when they are not negative; one to three of them), each once,
destroys the handle, and returns 0, whatever the `close` calls return. -/
theorem C8_free_valid_handle (H : Headers) (env : Collaborators) (hnd : private_handle_t)
    (hvalid : ¬ env.validate hnd < 0) :
    (gralloc_free H env hnd).1 = 0
    ∧ (gralloc_free H env hnd).2
      = Event.grallocUnmap hnd :: (hnd.resources.map Event.close ++ [Event.delete_handle hnd])
    ∧ unmapped (gralloc_free H env hnd).2 = [hnd]
    ∧ released (gralloc_free H env hnd).2 = hnd.resources
    ∧ 1 ≤ hnd.resources.length ∧ hnd.resources.length ≤ 3 := by
  by_cases h1 : 0 ≤ hnd.fd1 <;> by_cases h2 : 0 ≤ hnd.fd2 <;>
    simp [gralloc_free, hvalid, call_close, private_handle_t.resources, h1, h2, unmapped,
      released, Event.unmapped?, Event.released?]

/-- C8, an instance: a two-plane handle holding the descriptors 4 and 5, with `close`
reporting failure each time. -/
theorem C8_free_valid_handle_witness :
    (gralloc_free sampleHeaders (scriptedEnv 0 0 0)
        (private_handle_t.new2 4 5 4096 0 64 64 261 64 64)).1 = 0
    ∧ released (gralloc_free sampleHeaders (scriptedEnv 0 0 0)
        (private_handle_t.new2 4 5 4096 0 64 64 261 64 64)).2 = [4, 5]
    ∧ unmapped (gralloc_free sampleHeaders (scriptedEnv 0 0 0)
        (private_handle_t.new2 4 5 4096 0 64 64 261 64 64)).2
      = [private_handle_t.new2 4 5 4096 0 64 64 261 64 64] := by
  have h := C8_free_valid_handle sampleHeaders (scriptedEnv 0 0 0)
    (private_handle_t.new2 4 5 4096 0 64 64 261 64 64) (by decide)
  exact ⟨h.1, h.2.2.2.1, h.2.2.1⟩

theorem gralloc_alloc_yuv_planes_effect (env : Collaborators) (ionfd w h format : Int)
    (usage ion_flags heap_mask luma_size chroma_size planes luma_vstride : Nat) (o : Outs)
    (tr : List Event) :
    (gralloc_alloc_yuv_planes env ionfd w h format usage ion_flags heap_mask
        luma_size chroma_size planes luma_vstride o tr).effect env tr heap_mask ion_flags
      (if planes = 3 then 3 else 2) := by
  have f0 : env.descriptorsNonneg → _ := fun hfd => hfd (requests tr).length
    { ionfd := ionfd, len := luma_size, align := 0, heap_mask := heap_mask, flags := ion_flags }
  have f1 : env.descriptorsNonneg → _ := fun hfd => hfd ((requests tr).length + 1)
    { ionfd := ionfd, len := chroma_size, align := 0, heap_mask := heap_mask, flags := ion_flags }
  have f2 : env.descriptorsNonneg → _ := fun hfd => hfd ((requests tr).length + 1 + 1)
    { ionfd := ionfd, len := chroma_size, align := 0, heap_mask := heap_mask, flags := ion_flags }
  have g0 : (∀ n req, (env.ion_alloc_fd n req).err = 0) → _ := fun hall =>
    hall (requests tr).length
    { ionfd := ionfd, len := luma_size, align := 0, heap_mask := heap_mask, flags := ion_flags }
  have g1 : (∀ n req, (env.ion_alloc_fd n req).err = 0) → _ := fun hall =>
    hall ((requests tr).length + 1)
    { ionfd := ionfd, len := chroma_size, align := 0, heap_mask := heap_mask, flags := ion_flags }
  have g2 : (∀ n req, (env.ion_alloc_fd n req).err = 0) → _ := fun hall =>
    hall ((requests tr).length + 1 + 1)
    { ionfd := ionfd, len := chroma_size, align := 0, heap_mask := heap_mask, flags := ion_flags }
  simp only [Ret.effect, gralloc_alloc_yuv_planes, call_ion_alloc_fd, call_close, requests,
    List.filterMap_append, List.filterMap_cons, List.filterMap_nil, Event.request?,
    List.length_append, List.length_cons, List.length_nil, Nat.zero_add]
  simp only [requests] at f0 f1 f2 g0 g1 g2
  generalize env.ion_alloc_fd (List.filterMap Event.request? tr).length _ = r0 at f0 g0 ⊢
  generalize env.ion_alloc_fd ((List.filterMap Event.request? tr).length + 1) _ = r1 at f1 g1 ⊢
  generalize env.ion_alloc_fd ((List.filterMap Event.request? tr).length + 1 + 1) _ = r2
    at f2 g2 ⊢
  by_cases h0 : r0.err = 0
  · by_cases h1 : r1.err = 0
    · by_cases hp : planes = 3
      · by_cases h2 : r2.err = 0
        · by_cases hfd : env.descriptorsNonneg
          · simp [h0, h1, h2, hp, hfd, f1 hfd h1, f2 hfd h2, mapped, handedOut, released,
              requests, Event.request?, Event.mapped?, Event.handedOut?, Event.released?,
              private_handle_t.new3, private_handle_t.resources]
          · simp [h0, h1, h2, hp, hfd, mapped, handedOut, released,
              requests, Event.request?, Event.mapped?, Event.handedOut?, Event.released?,
              private_handle_t.new3, private_handle_t.resources]
        · have ng : ¬ (∀ n req, (env.ion_alloc_fd n req).err = 0) := fun hall => h2 (g2 hall)
          simp [h0, h1, h2, hp, ng, mapped, handedOut, released, requests, Event.request?,
            Event.mapped?, Event.handedOut?, Event.released?]
      · by_cases hfd : env.descriptorsNonneg
        · simp [h0, h1, hp, hfd, f1 hfd h1, mapped, handedOut, released, requests,
            Event.request?, Event.mapped?, Event.handedOut?, Event.released?,
            private_handle_t.new2, private_handle_t.resources]
        · simp [h0, h1, hp, hfd, mapped, handedOut, released, requests,
            Event.request?, Event.mapped?, Event.handedOut?, Event.released?,
            private_handle_t.new2, private_handle_t.resources]
    · have ng : ¬ (∀ n req, (env.ion_alloc_fd n req).err = 0) := fun hall => h1 (g1 hall)
      simp [h0, h1, ng, mapped, handedOut, released, requests, Event.request?,
        Event.mapped?, Event.handedOut?, Event.released?]
  · have ng : ¬ (∀ n req, (env.ion_alloc_fd n req).err = 0) := fun hall => h0 (g0 hall)
    simp [h0, ng, mapped, handedOut, released, requests, Event.request?,
      Event.mapped?, Event.handedOut?, Event.released?]

theorem gralloc_alloc_rgb_effect {H : Headers} (hH : H.WF) (env : Collaborators)
    (ionfd w h : Int) (p : PixelFormat) (b : Nat) (usage ion_flags : Nat) (o : Outs)
    (tr : List Event) (hb : packed_bpp p = some b) :
    (gralloc_alloc_rgb H env ionfd w h (H.HAL_PIXEL_FORMAT p) usage ion_flags o tr).effect env tr
      (_select_heap H usage) ion_flags 1 := by
  obtain ⟨size, stride, vstride, hshape⟩ := gralloc_alloc_rgb_shape hH env ionfd w h p b usage
    ion_flags o tr hb
  rw [hshape]
  have g0 : (∀ n req, (env.ion_alloc_fd n req).err = 0) → _ := fun hall =>
    hall (requests tr).length
    { ionfd := ionfd, len := size, align := 0, heap_mask := _select_heap H usage,
      flags := ion_flags }
  generalize env.ion_alloc_fd (requests tr).length _ = r0 at g0 ⊢
  by_cases h0 : r0.err = 0
  · simp [Ret.effect, h0, mapped, handedOut, released, requests, Event.request?,
      Event.mapped?, Event.handedOut?, Event.released?, private_handle_t.new1,
      private_handle_t.resources]
  · have ng : ¬ (∀ n req, (env.ion_alloc_fd n req).err = 0) := fun hall => h0 (g0 hall)
    simp [Ret.effect, h0, ng, mapped, handedOut, released, requests, Event.request?,
      Event.mapped?, Event.handedOut?, Event.released?]

theorem gralloc_alloc_framework_yuv_effect {H : Headers} (hH : H.WF) (env : Collaborators)
    (ionfd w h : Int) (p : PixelFormat) (usage ion_flags : Nat) (o : Outs) (tr : List Event)
    (hp : p = .YV12 ∨ p = .YCrCb_420_SP) :
    (gralloc_alloc_framework_yuv H env ionfd w h (H.HAL_PIXEL_FORMAT p) usage ion_flags o
        tr).effect env tr ((1 <<< H.ION_HEAP_TYPE_SYSTEM) % 4294967296) ion_flags 1 := by
  have hshape : ∃ stride size,
      gralloc_alloc_framework_yuv H env ionfd w h (H.HAL_PIXEL_FORMAT p) usage ion_flags o tr =
        if (env.ion_alloc_fd (requests tr).length
            { ionfd := ionfd, len := size, align := 0,
              heap_mask := (1 <<< H.ION_HEAP_TYPE_SYSTEM) % 4294967296,
              flags := ion_flags }).err ≠ 0 then
          { err := (env.ion_alloc_fd (requests tr).length
              { ionfd := ionfd, len := size, align := 0,
                heap_mask := (1 <<< H.ION_HEAP_TYPE_SYSTEM) % 4294967296,
                flags := ion_flags }).err,
            outs := { o with stride := stride },
            trace := tr ++ [Event.ion_alloc_fd
              { ionfd := ionfd, len := size, align := 0,
                heap_mask := (1 <<< H.ION_HEAP_TYPE_SYSTEM) % 4294967296,
                flags := ion_flags }
              (env.ion_alloc_fd (requests tr).length
                { ionfd := ionfd, len := size, align := 0,
                  heap_mask := (1 <<< H.ION_HEAP_TYPE_SYSTEM) % 4294967296,
                  flags := ion_flags })] }
        else
          { err := (env.ion_alloc_fd (requests tr).length
              { ionfd := ionfd, len := size, align := 0,
                heap_mask := (1 <<< H.ION_HEAP_TYPE_SYSTEM) % 4294967296,
                flags := ion_flags }).err,
            outs :=
              { hnd := private_handle_t.new1 (env.ion_alloc_fd (requests tr).length
                  { ionfd := ionfd, len := size, align := 0,
                    heap_mask := (1 <<< H.ION_HEAP_TYPE_SYSTEM) % 4294967296,
                    flags := ion_flags }).fd size usage w h (H.HAL_PIXEL_FORMAT p) stride h,
                stride := stride },
            trace := tr ++ [Event.ion_alloc_fd
              { ionfd := ionfd, len := size, align := 0,
                heap_mask := (1 <<< H.ION_HEAP_TYPE_SYSTEM) % 4294967296,
                flags := ion_flags }
              (env.ion_alloc_fd (requests tr).length
                { ionfd := ionfd, len := size, align := 0,
                  heap_mask := (1 <<< H.ION_HEAP_TYPE_SYSTEM) % 4294967296,
                  flags := ion_flags }),
              Event.new_handle (private_handle_t.new1 (env.ion_alloc_fd (requests tr).length
                  { ionfd := ionfd, len := size, align := 0,
                    heap_mask := (1 <<< H.ION_HEAP_TYPE_SYSTEM) % 4294967296,
                    flags := ion_flags }).fd size usage w h (H.HAL_PIXEL_FORMAT p) stride h)] } := by
    rcases hp with rfl | rfl
    · exact ⟨ALIGN_int w 16, u32 (idiv (imul (imul (ALIGN_int w 16) h) 3) 2), by
        simp only [gralloc_alloc_framework_yuv, call_ion_alloc_fd, if_true, List.append_assoc,
          List.singleton_append]⟩
    · exact ⟨w, u32 (idiv (imul (imul w h) 3) 2), by
        simp [gralloc_alloc_framework_yuv, call_ion_alloc_fd, hH.tag_eq_iff]⟩
  obtain ⟨stride, size, hshape⟩ := hshape
  rw [hshape]
  have g0 : (∀ n req, (env.ion_alloc_fd n req).err = 0) → _ := fun hall =>
    hall (requests tr).length
    { ionfd := ionfd, len := size, align := 0,
      heap_mask := (1 <<< H.ION_HEAP_TYPE_SYSTEM) % 4294967296, flags := ion_flags }
  generalize env.ion_alloc_fd (requests tr).length _ = r0 at g0 ⊢
  by_cases h0 : r0.err = 0
  · simp [Ret.effect, h0, mapped, handedOut, released, requests, Event.request?,
      Event.mapped?, Event.handedOut?, Event.released?, private_handle_t.new1,
      private_handle_t.resources]
  · have ng : ¬ (∀ n req, (env.ion_alloc_fd n req).err = 0) := fun hall => h0 (g0 hall)
    simp [Ret.effect, h0, ng, mapped, handedOut, released, requests, Event.request?,
      Event.mapped?, Event.handedOut?, Event.released?]

theorem gralloc_alloc_yuv_framework {H : Headers} (hH : H.WF) (env : Collaborators)
    (ionfd w h : Int) (p : PixelFormat) (usage ion_flags : Nat) (o : Outs) (tr : List Event)
    (hp : p = .YV12 ∨ p = .YCrCb_420_SP) :
    gralloc_alloc_yuv H env ionfd w h (H.HAL_PIXEL_FORMAT p) usage ion_flags o tr =
      gralloc_alloc_framework_yuv H env ionfd w h (H.HAL_PIXEL_FORMAT p) usage ion_flags
        { o with stride := ALIGN_int w 16 } tr := by
  rcases hp with rfl | rfl <;> simp [gralloc_alloc_yuv, hH.tag_eq_iff]

theorem gralloc_alloc_yuv_effect {H : Headers} (hH : H.WF) (env : Collaborators)
    (ionfd w h : Int) (p : PixelFormat) (usage ion_flags : Nat) (o : Outs) (tr : List Event)
    (hb : packed_bpp p = none) :
    (gralloc_alloc_yuv H env ionfd w h (H.HAL_PIXEL_FORMAT p) usage ion_flags o tr).effect env tr
      (pool_selector H p usage) ion_flags (plane_count p) := by
  have hclass : p = .EXYNOS_YV12 ∨ plane_count p = 2 ∨ (p = .YV12 ∨ p = .YCrCb_420_SP) := by
    cases p <;> simp [packed_bpp, plane_count] at hb ⊢
  rcases hclass with rfl | h2 | hf
  · rw [gralloc_alloc_yuv_three]
    exact gralloc_alloc_yuv_planes_effect _ _ _ _ _ _ _ _ _ _ _ _ _ _
  · rw [gralloc_alloc_yuv_two hH _ _ _ _ _ _ _ _ _ h2]
    have hsel : pool_selector H p usage = _select_heap H usage := by
      cases p <;> simp [plane_count] at h2 <;> simp [pool_selector]
    rw [hsel, h2]
    exact gralloc_alloc_yuv_planes_effect _ _ _ _ _ _ _ _ _ _ 2 _ _ _
  · rw [gralloc_alloc_yuv_framework hH _ _ _ _ _ _ _ _ _ hf]
    have hsel : pool_selector H p usage = (1 <<< H.ION_HEAP_TYPE_SYSTEM) % 4294967296 := by
      simp [pool_selector, hf]
    have hcount : plane_count p = 1 := by rcases hf with rfl | rfl <;> rfl
    rw [hsel, hcount]
    exact gralloc_alloc_framework_yuv_effect hH _ _ _ _ _ _ _ _ _ hf

/-- The tail of `gralloc_alloc` (from line 293 on), in terms of the result `r` of the
two allocation attempts. -/
theorem gralloc_alloc_tail (H : Headers) (env : Collaborators) (ionfd : Int) (uninit : Outs)
    (w h format : Int) (usage : Nat) (a : private_handle_t) (b : Int) (r : Ret)
    (hr : r = if (gralloc_alloc_rgb H env ionfd w h format usage (ion_flags_of H usage)
            uninit []).err ≠ 0 then
          gralloc_alloc_yuv H env ionfd w h format usage (ion_flags_of H usage)
            (gralloc_alloc_rgb H env ionfd w h format usage (ion_flags_of H usage) uninit []).outs
            (gralloc_alloc_rgb H env ionfd w h format usage (ion_flags_of H usage) uninit []).trace
        else gralloc_alloc_rgb H env ionfd w h format usage (ion_flags_of H usage) uninit []) :
    gralloc_alloc H env ionfd uninit w h format usage (some a) (some b) =
      if r.err ≠ 0 then { ret := r.err, pHandle := some a, pStride := some b, trace := r.trace }
      else if env.grallocMap r.outs.hnd ≠ 0 then
        { ret := env.grallocMap r.outs.hnd, pHandle := some a, pStride := some b,
          trace := r.trace ++ Event.grallocMap r.outs.hnd (env.grallocMap r.outs.hnd)
            :: r.outs.hnd.resources.map Event.close }
      else
        { ret := 0, pHandle := some r.outs.hnd, pStride := some r.outs.stride,
          trace := r.trace ++ [Event.grallocMap r.outs.hnd (env.grallocMap r.outs.hnd)] } := by
  simp only [gralloc_alloc, ← hr]
  by_cases h0 : r.err = 0
  · by_cases hm : env.grallocMap r.outs.hnd = 0
    · simp [h0, hm]
    · by_cases h1 : 0 ≤ r.outs.hnd.fd1 <;> by_cases h2 : 0 ≤ r.outs.hnd.fd2 <;>
        simp [h0, hm, h1, h2, call_close, private_handle_t.resources]
  · simp [h0]

theorem pool_selector_packed (H : Headers) (p : PixelFormat) (b : Nat) (usage : Nat)
    (hb : packed_bpp p = some b) : pool_selector H p usage = _select_heap H usage := by
  cases p <;> simp [packed_bpp] at hb <;> simp [pool_selector]

theorem plane_count_packed (p : PixelFormat) (b : Nat) (hb : packed_bpp p = some b) :
    plane_count p = 1 := by
  cases p <;> simp [packed_bpp] at hb <;> rfl

/-- The two allocation attempts of `gralloc_alloc` on a recognized format, summarised. -/
theorem gralloc_alloc_dispatch {H : Headers} (hH : H.WF) (env : Collaborators) (ionfd : Int)
    (uninit : Outs) (w h : Int) (p : PixelFormat) (usage : Nat) (a : private_handle_t)
    (b : Int) :
    ∃ r : Ret, r.effect env [] (pool_selector H p usage) (ion_flags_of H usage) (plane_count p)
      ∧ gralloc_alloc H env ionfd uninit w h (H.HAL_PIXEL_FORMAT p) usage (some a) (some b) =
        if r.err ≠ 0 then
          { ret := r.err, pHandle := some a, pStride := some b, trace := r.trace }
        else if env.grallocMap r.outs.hnd ≠ 0 then
          { ret := env.grallocMap r.outs.hnd, pHandle := some a, pStride := some b,
            trace := r.trace ++ Event.grallocMap r.outs.hnd (env.grallocMap r.outs.hnd)
              :: r.outs.hnd.resources.map Event.close }
        else
          { ret := 0, pHandle := some r.outs.hnd, pStride := some r.outs.stride,
            trace := r.trace ++ [Event.grallocMap r.outs.hnd (env.grallocMap r.outs.hnd)] } := by
  have hne := neg_einval_ne_zero hH
  refine ⟨_, ?_, gralloc_alloc_tail H env ionfd uninit w h (H.HAL_PIXEL_FORMAT p) usage a b _ rfl⟩
  cases hb : packed_bpp p with
  | none =>
    rw [gralloc_alloc_rgb_not_packed env ionfd w h _ usage _ _ _ (rgb_bpp_not_packed hH p hb)]
    simp only [hne, ne_eq, not_false_eq_true, if_true]
    exact gralloc_alloc_yuv_effect hH env ionfd w h p usage _ _ _ hb
  | some bpp =>
    have heff := gralloc_alloc_rgb_effect hH env ionfd w h p bpp usage (ion_flags_of H usage)
      uninit [] hb
    rw [pool_selector_packed H p bpp usage hb, plane_count_packed p bpp hb]
    by_cases h0 : (gralloc_alloc_rgb H env ionfd w h (H.HAL_PIXEL_FORMAT p) usage
        (ion_flags_of H usage) uninit []).err = 0
    · simp only [h0, ne_eq, not_true_eq_false, if_false]
      exact heff
    · simp only [h0, ne_eq, not_false_eq_true, if_true,
        gralloc_alloc_yuv_packed hH env ionfd w h p bpp usage _ _ _ hb]
      obtain ⟨e1, e2, e3, _, e5⟩ := heff
      refine ⟨e1, e2, fun _ => e3 h0, fun hz => absurd hz hne, fun hall => absurd (e5 hall) h0⟩

theorem handedOut_map_close (l : List Int) : handedOut (l.map Event.close) = [] := by
  induction l with
  | nil => rfl
  | cons a l _ => simp [handedOut, Event.handedOut?]

theorem released_map_close (l : List Int) : released (l.map Event.close) = l := by
  induction l with
  | nil => rfl
  | cons a l ih => simpa [released, Event.released?] using ih

theorem requests_map_close (l : List Int) : requests (l.map Event.close) = [] := by
  induction l with
  | nil => rfl
  | cons a l _ => simp [requests, Event.request?]

theorem mapped_map_close (l : List Int) : mapped (l.map Event.close) = [] := by
  induction l with
  | nil => rfl
  | cons a l _ => simp [mapped, Event.mapped?]

theorem handedOut_append (a b : List Event) : handedOut (a ++ b) = handedOut a ++ handedOut b := by
  simp [handedOut]

theorem released_append (a b : List Event) : released (a ++ b) = released a ++ released b := by
  simp [released]

theorem requests_append (a b : List Event) : requests (a ++ b) = requests a ++ requests b := by
  simp [requests]

theorem mapped_append (a b : List Event) : mapped (a ++ b) = mapped a ++ mapped b := by
  simp [mapped]

theorem handedOut_grallocMap_cons (hnd : private_handle_t) (e : Int) (l : List Event) :
    handedOut (Event.grallocMap hnd e :: l) = handedOut l := by
  simp [handedOut, Event.handedOut?]

theorem released_grallocMap_cons (hnd : private_handle_t) (e : Int) (l : List Event) :
    released (Event.grallocMap hnd e :: l) = released l := by
  simp [released, Event.released?]

theorem requests_grallocMap_cons (hnd : private_handle_t) (e : Int) (l : List Event) :
    requests (Event.grallocMap hnd e :: l) = requests l := by
  simp [requests, Event.request?]

theorem mapped_grallocMap_cons (hnd : private_handle_t) (e : Int) (l : List Event) :
    mapped (Event.grallocMap hnd e :: l) = hnd :: mapped l := by
  simp [mapped, Event.mapped?]

/-- C5: for every recognized format, if every plane request of the call succeeds and
the mapping collaborator then fails with `m`, `gralloc_alloc` returns `m`, and the
descriptors it releases are exactly those handed out in the call, each once: they are
the resources of the one handle passed to `grallocMap`, as many as the format has
planes (one, two or three).  The output slots stay as they were. -/
theorem C5_mapping_failure_rollback (H : Headers) (hH : H.WF) (env : Collaborators)
    (ionfd : Int) (uninit : Outs) (w h : Int) (p : PixelFormat) (usage : Nat)
    (slotH : private_handle_t) (slotS : Int) (m : Int) (res : AllocResult)
    (hpool : ∀ n req, (env.ion_alloc_fd n req).ok)
    (hmap : ∀ hnd, env.grallocMap hnd = m) (hm : m ≠ 0)
    (hres : res = gralloc_alloc H env ionfd uninit w h (H.HAL_PIXEL_FORMAT p) usage
      (some slotH) (some slotS)) :
    res.ret = m
    ∧ released res.trace = handedOut res.trace
    ∧ (handedOut res.trace).length = plane_count p
    ∧ (∃ hnd, mapped res.trace = [hnd] ∧ hnd.resources = handedOut res.trace)
    ∧ res.pHandle = some slotH ∧ res.pStride = some slotS := by
  obtain ⟨r, ⟨_, e2, _, e4, e5⟩, heq⟩ := gralloc_alloc_dispatch hH env ionfd uninit w h p usage
    slotH slotS
  have h0 : r.err = 0 := e5 (fun n req => (hpool n req).1)
  have hfd : env.descriptorsNonneg := fun n req _ => (hpool n req).2
  obtain ⟨hrel, D, hD, hlen, hD2⟩ := e4 h0
  have hD3 := hD2 hfd
  rw [hres, heq]
  simp only [h0, hmap, hm, ne_eq, not_true_eq_false, not_false_eq_true, if_true, if_false]
  simp only [handedOut_append, released_append, mapped_append, handedOut_grallocMap_cons,
    released_grallocMap_cons, mapped_grallocMap_cons, handedOut_map_close, released_map_close,
    mapped_map_close, hrel, hD, e2, hD3, hlen]
  simp [handedOut, released, mapped, hlen, hD3]

/-- C5, an instance: a three-plane `EXYNOS_YV12` buffer whose mapping fails with -5. -/
theorem C5_mapping_failure_rollback_witness :
    (gralloc_alloc sampleHeaders (mapFailEnv (-5)) 3 junk 100 100
        (sampleFormat .EXYNOS_YV12) 0 (some junk.hnd) (some 0)).ret = -5
    ∧ released (gralloc_alloc sampleHeaders (mapFailEnv (-5)) 3 junk 100 100
        (sampleFormat .EXYNOS_YV12) 0 (some junk.hnd) (some 0)).trace
      = handedOut (gralloc_alloc sampleHeaders (mapFailEnv (-5)) 3 junk 100 100
        (sampleFormat .EXYNOS_YV12) 0 (some junk.hnd) (some 0)).trace
    ∧ (handedOut (gralloc_alloc sampleHeaders (mapFailEnv (-5)) 3 junk 100 100
        (sampleFormat .EXYNOS_YV12) 0 (some junk.hnd) (some 0)).trace).length = 3 := by
  have h := C5_mapping_failure_rollback sampleHeaders sampleHeaders_wf (mapFailEnv (-5))
    3 junk 100 100 .EXYNOS_YV12 0 junk.hnd 0 (-5) _
    (fun n req => ⟨rfl, by simp [mapFailEnv]; omega⟩) (fun _ => rfl) (by decide) rfl
  exact ⟨h.1, h.2.1, h.2.2.1⟩

theorem scriptedEnv_descriptorsNonneg (k : Nat) (e m : Int) (he : e ≠ 0) :
    (scriptedEnv k e m).descriptorsNonneg := by
  intro n req
  by_cases hn : n < k
  · simp only [scriptedEnv, hn, if_true]
    intro _
    omega
  · simp only [scriptedEnv, hn, if_false]
    intro h
    exact absurd h he

/-- C6: for every width, height, format and usage, every pool service (whose
descriptors are non-negative numbers) and every mapping collaborator: if
`gralloc_alloc` returns a non-zero status, both output slots are as they were, and the
descriptors released during the call are exactly those the pool service handed out
during it, each once. -/
theorem C6_failure_leaves_nothing (H : Headers) (hH : H.WF) (env : Collaborators)
    (ionfd : Int) (uninit : Outs) (w h format : Int) (usage : Nat)
    (pHandle : Option private_handle_t) (pStride : Option Int) (res : AllocResult)
    (hfd : env.descriptorsNonneg)
    (hres : res = gralloc_alloc H env ionfd uninit w h format usage pHandle pStride)
    (hret : res.ret ≠ 0) :
    res.pHandle = pHandle ∧ res.pStride = pStride
    ∧ (released res.trace).Perm (handedOut res.trace) := by
  have hne := neg_einval_ne_zero hH
  by_cases hf : ∃ p, format = H.HAL_PIXEL_FORMAT p
  · obtain ⟨p, rfl⟩ := hf
    cases pHandle with
    | none => subst hres; simp [gralloc_alloc, released, handedOut]
    | some a =>
      cases pStride with
      | none => subst hres; simp [gralloc_alloc, released, handedOut]
      | some b =>
        obtain ⟨r, ⟨_, _, e3, e4, _⟩, heq⟩ := gralloc_alloc_dispatch hH env ionfd uninit w h p
          usage a b
        rw [heq] at hres
        by_cases h0 : r.err = 0
        · obtain ⟨hrel, D, hD, _, hD2⟩ := e4 h0
          have hD3 := hD2 hfd
          by_cases hm : env.grallocMap r.outs.hnd = 0
          · subst hres
            simp [h0, hm] at hret
          · subst hres
            simp only [h0, hm, ne_eq, not_true_eq_false, not_false_eq_true, if_true, if_false,
              handedOut_append, released_append, handedOut_grallocMap_cons,
              released_grallocMap_cons, handedOut_map_close, released_map_close, hrel, hD, hD3]
            simp [handedOut, released]
        · obtain ⟨D, hD, hrel⟩ := e3 h0
          subst hres
          simp only [h0, ne_eq, not_false_eq_true, if_true, hD, hrel]
          simp [handedOut, released, List.reverse_perm]
  · have hf2 : ∀ p, format ≠ H.HAL_PIXEL_FORMAT p := fun p hp => hf ⟨p, hp⟩
    subst hres
    rw [gralloc_alloc_unrecognized hH env ionfd uninit w h format usage pHandle pStride hf2]
    simp [released, handedOut]

/-- C6, an instance: the second plane request of a semi-planar buffer is refused. -/
theorem C6_failure_leaves_nothing_witness :
    (gralloc_alloc sampleHeaders (scriptedEnv 1 (-12) 0) 3 junk 100 100
        (sampleFormat .YCbCr_420_SP) 0 (some junk.hnd) (some 0)).pHandle = some junk.hnd
    ∧ (gralloc_alloc sampleHeaders (scriptedEnv 1 (-12) 0) 3 junk 100 100
        (sampleFormat .YCbCr_420_SP) 0 (some junk.hnd) (some 0)).pStride = some 0
    ∧ (released (gralloc_alloc sampleHeaders (scriptedEnv 1 (-12) 0) 3 junk 100 100
        (sampleFormat .YCbCr_420_SP) 0 (some junk.hnd) (some 0)).trace).Perm
      (handedOut (gralloc_alloc sampleHeaders (scriptedEnv 1 (-12) 0) 3 junk 100 100
        (sampleFormat .YCbCr_420_SP) 0 (some junk.hnd) (some 0)).trace) :=
  C6_failure_leaves_nothing sampleHeaders sampleHeaders_wf (scriptedEnv 1 (-12) 0) 3 junk
    100 100 (sampleFormat .YCbCr_420_SP) 0 (some junk.hnd) (some 0) _
    (scriptedEnv_descriptorsNonneg 1 (-12) 0 (by decide)) rfl (by decide)

/-- C9 fails as stated: for the framework-native format `YV12` with the
protected-content flag set in `usage`, `_select_heap` returns the contiguous pool mask
16, but the one pool request of the call carries the system pool mask 1. -/
theorem C9_counterexample :
    16384 &&& sampleHeaders.GRALLOC_USAGE_PROTECTED ≠ 0
    ∧ _select_heap sampleHeaders 16384 = ION_HEAP_EXYNOS_CONTIG_MASK
    ∧ ION_HEAP_EXYNOS_CONTIG_MASK = 16
    ∧ (requests (gralloc_alloc sampleHeaders goodEnv 3 junk 100 100 (sampleFormat .YV12) 16384
        (some junk.hnd) (some 0)).trace).map IonRequest.heap_mask = [1] := by
  decide

/-- C9 (as amended): `_select_heap` returns the contiguous pool mask when the
protected-content flag is set in `usage` and the system pool mask otherwise; for every
packed format and every two- or three-plane format, every pool request of a
`gralloc_alloc` call carries the selector `_select_heap` returns for the call's usage;
for the framework-native formats `YV12` and `YCrCb_420_SP` every pool request carries
the system pool selector `1 << ION_HEAP_TYPE_SYSTEM`, whatever the usage. -/
theorem C9_pool_selector (H : Headers) (hH : H.WF) (env : Collaborators)
    (ionfd : Int) (uninit : Outs) (w h : Int) (p : PixelFormat) (usage : Nat)
    (pHandle : Option private_handle_t) (pStride : Option Int) :
    (_select_heap H usage = if usage &&& H.GRALLOC_USAGE_PROTECTED ≠ 0
        then ION_HEAP_EXYNOS_CONTIG_MASK else H.ION_HEAP_SYSTEM_MASK)
    ∧ ∀ req ∈ requests (gralloc_alloc H env ionfd uninit w h (H.HAL_PIXEL_FORMAT p) usage
        pHandle pStride).trace,
      (¬ p.frameworkNative → req.heap_mask = _select_heap H usage)
      ∧ (p.frameworkNative → req.heap_mask = (1 <<< H.ION_HEAP_TYPE_SYSTEM) % 4294967296) := by
  refine ⟨rfl, ?_⟩
  have hsel : ∀ req : IonRequest, req.heap_mask = pool_selector H p usage →
      (¬ p.frameworkNative → req.heap_mask = _select_heap H usage)
      ∧ (p.frameworkNative → req.heap_mask = (1 <<< H.ION_HEAP_TYPE_SYSTEM) % 4294967296) := by
    intro req hreq
    unfold PixelFormat.frameworkNative
    constructor
    · intro hn
      rw [hreq, pool_selector, if_neg hn]
    · intro hf
      rw [hreq, pool_selector, if_pos hf]
  cases pHandle with
  | none => simp [gralloc_alloc, requests]
  | some a =>
    cases pStride with
    | none => simp [gralloc_alloc, requests]
    | some b =>
      obtain ⟨r, ⟨⟨L, hL, hmask⟩, _, _, _, _⟩, heq⟩ := gralloc_alloc_dispatch hH env ionfd uninit
        w h p usage a b
      have hreqs : requests (gralloc_alloc H env ionfd uninit w h (H.HAL_PIXEL_FORMAT p) usage
          (some a) (some b)).trace = L := by
        rw [heq]
        by_cases h0 : r.err = 0
        · by_cases hm : env.grallocMap r.outs.hnd = 0
          · simp only [h0, hm, ne_eq, not_true_eq_false, if_false, requests_append, hL]
            simp [requests, Event.request?]
          · simp only [h0, hm, ne_eq, not_true_eq_false, not_false_eq_true, if_true, if_false,
              requests_append, requests_grallocMap_cons, requests_map_close, hL]
            simp [requests]
        · simp only [h0, ne_eq, not_false_eq_true, if_true, hL]
          simp [requests]
      rw [hreqs]
      intro req hreq
      exact hsel req (hmask req hreq).1

/-- C9, two instances with the protected-content flag set: a three-plane `EXYNOS_YV12`
call asks the pool `_select_heap` names, a framework-native `YV12` call asks the system
pool. -/
theorem C9_pool_selector_witness :
    (∀ req ∈ requests (gralloc_alloc sampleHeaders goodEnv 3 junk 100 100
        (sampleFormat .EXYNOS_YV12) 16384 (some junk.hnd) (some 0)).trace,
      req.heap_mask = _select_heap sampleHeaders 16384)
    ∧ (∀ req ∈ requests (gralloc_alloc sampleHeaders goodEnv 3 junk 100 100
        (sampleFormat .YV12) 16384 (some junk.hnd) (some 0)).trace,
      req.heap_mask = 1) :=
  ⟨fun req hreq => ((C9_pool_selector sampleHeaders sampleHeaders_wf goodEnv 3 junk 100 100
      .EXYNOS_YV12 16384 (some junk.hnd) (some 0)).2 req hreq).1
      (by unfold PixelFormat.frameworkNative; decide),
   fun req hreq => ((C9_pool_selector sampleHeaders sampleHeaders_wf goodEnv 3 junk 100 100
      .YV12 16384 (some junk.hnd) (some 0)).2 req hreq).2 (Or.inl rfl)⟩

theorem idiv_two (a : Nat) (h : a < 2147483648) : idiv (a : Int) 2 = ((a / 2 : Nat) : Int) := by
  have := idiv_natCast a 2 h
  simpa using this

theorem round_up_half_le (w : Nat) : round_up (round_up w 16 / 2) 16 ≤ round_up w 16 := by
  unfold round_up
  omega

/-- C10: for the three-plane format `EXYNOS_YV12` and every width `w` and height `h`
without 32-bit overflow (`w + 15 < 2^31`, `h + 15 < 2^31`, `s * v < 2^32`), with luma
stride `s = round_up(w,16)` and luma vertical stride `v = round_up(h,16)`: when the
three pool requests and the mapping succeed, `gralloc_alloc` makes exactly three pool
requests, in order, of sizes `s*v`, `(v/2)*round_up(s/2,16)` and
`(v/2)*round_up(s/2,16)`, all with the same pool selector and flags; the handle holds
the three descriptors in that order and records size `s*v`, stride `s` and vertical
stride `v`; the stride output is `s` and the return value 0. -/
theorem C10_three_plane_allocation (H : Headers) (hH : H.WF) (env : Collaborators)
    (ionfd : Int) (uninit : Outs) (w h : Nat) (usage : Nat)
    (slotH : private_handle_t) (slotS : Int)
    (hw : w + 15 < 2147483648) (hh : h + 15 < 2147483648)
    (hsize : round_up w 16 * round_up h 16 < 4294967296)
    (h0 : (env.ion_alloc_fd 0
      { ionfd := ionfd, len := round_up w 16 * round_up h 16, align := 0,
        heap_mask := _select_heap H usage, flags := ion_flags_of H usage }).err = 0)
    (h1 : (env.ion_alloc_fd 1
      { ionfd := ionfd, len := round_up h 16 / 2 * round_up (round_up w 16 / 2) 16, align := 0,
        heap_mask := _select_heap H usage, flags := ion_flags_of H usage }).err = 0)
    (h2 : (env.ion_alloc_fd 2
      { ionfd := ionfd, len := round_up h 16 / 2 * round_up (round_up w 16 / 2) 16, align := 0,
        heap_mask := _select_heap H usage, flags := ion_flags_of H usage }).err = 0)
    (hmap : ∀ hnd, env.grallocMap hnd = 0) :
    gralloc_alloc H env ionfd uninit w h (H.HAL_PIXEL_FORMAT .EXYNOS_YV12) usage
        (some slotH) (some slotS) =
      (let luma : IonRequest :=
        { ionfd := ionfd, len := round_up w 16 * round_up h 16, align := 0,
          heap_mask := _select_heap H usage, flags := ion_flags_of H usage }
       let chroma : IonRequest :=
        { ionfd := ionfd, len := round_up h 16 / 2 * round_up (round_up w 16 / 2) 16,
          align := 0, heap_mask := _select_heap H usage, flags := ion_flags_of H usage }
       let hnd : private_handle_t :=
        { fd := (env.ion_alloc_fd 0 luma).fd, fd1 := (env.ion_alloc_fd 1 chroma).fd,
          fd2 := (env.ion_alloc_fd 2 chroma).fd, size := round_up w 16 * round_up h 16,
          flags := usage, width := w, height := h,
          format := H.HAL_PIXEL_FORMAT .EXYNOS_YV12,
          stride := ((round_up w 16 : Nat) : Int), vstride := ((round_up h 16 : Nat) : Int) }
       { ret := 0, pHandle := some hnd, pStride := some ((round_up w 16 : Nat) : Int),
         trace := [Event.ion_alloc_fd luma (env.ion_alloc_fd 0 luma),
                   Event.ion_alloc_fd chroma (env.ion_alloc_fd 1 chroma),
                   Event.ion_alloc_fd chroma (env.ion_alloc_fd 2 chroma),
                   Event.new_handle hnd, Event.grallocMap hnd 0] }) := by
  have hne := neg_einval_ne_zero hH
  have hrgb := gralloc_alloc_rgb_not_packed env ionfd w h (H.HAL_PIXEL_FORMAT .EXYNOS_YV12) usage
    (ion_flags_of H usage) uninit [] (rgb_bpp_not_packed hH _ rfl)
  have r1 := round_up_le w 16
  have r2 := round_up_le h 16
  have r3 := round_up_le (round_up w 16 / 2) 16
  have r4 := round_up_half_le w
  have a1 : ALIGN_int (w : Int) 16 = ((round_up w 16 : Nat) : Int) :=
    ALIGN_int_natCast w 4 (by omega) (by norm_num; omega)
  have a2 : ALIGN_int (h : Int) 16 = ((round_up h 16 : Nat) : Int) :=
    ALIGN_int_natCast h 4 (by omega) (by norm_num; omega)
  have a3 : u32 ((round_up w 16 : Nat) : Int) = round_up w 16 := u32_natCast _ (by omega)
  have a4 : u32 ((round_up h 16 : Nat) : Int) = round_up h 16 := u32_natCast _ (by omega)
  have a5 : umul (round_up h 16) (round_up w 16) = round_up w 16 * round_up h 16 := by
    unfold umul
    rw [Nat.mul_comm]
    exact Nat.mod_eq_of_lt hsize
  have a6 : idiv ((round_up w 16 : Nat) : Int) 2 = ((round_up w 16 / 2 : Nat) : Int) :=
    idiv_two _ (by omega)
  have a7 : ALIGN_int ((round_up w 16 / 2 : Nat) : Int) 16
      = ((round_up (round_up w 16 / 2) 16 : Nat) : Int) :=
    ALIGN_int_natCast _ 4 (by omega) (by norm_num; omega)
  have a8 : u32 ((round_up (round_up w 16 / 2) 16 : Nat) : Int)
      = round_up (round_up w 16 / 2) 16 := u32_natCast _ (by omega)
  have hchroma : round_up h 16 / 2 * round_up (round_up w 16 / 2) 16
      ≤ round_up h 16 * round_up w 16 :=
    Nat.mul_le_mul (Nat.div_le_self _ _) r4
  have a9 : umul (round_up h 16 / 2) (round_up (round_up w 16 / 2) 16)
      = round_up h 16 / 2 * round_up (round_up w 16 / 2) 16 := by
    unfold umul
    apply Nat.mod_eq_of_lt
    rw [Nat.mul_comm (round_up h 16) (round_up w 16)] at hchroma
    omega
  have a10 : s32 (round_up h 16) = ((round_up h 16 : Nat) : Int) := s32_of_lt _ (by omega)
  simp only [gralloc_alloc, hrgb, gralloc_alloc_yuv_three, a1, a2, a3, a4, a5, a6, a7, a8, a9, a10,
    gralloc_alloc_yuv_planes, call_ion_alloc_fd, requests, Event.request?,
    List.filterMap_nil, List.filterMap_cons, List.filterMap_append, List.nil_append,
    List.length_nil, List.length_cons, List.length_append, List.singleton_append,
    List.cons_append, Nat.zero_add, h0, h1, h2, hmap, private_handle_t.new3]
  simp [hne]

/-- C10, an instance: width 100 and height 100 give the sizes 12544, 3584, 3584, the
stride 112 and the vertical stride 112. -/
theorem C10_three_plane_allocation_witness :
    (requests (gralloc_alloc sampleHeaders goodEnv 3 junk 100 100 (sampleFormat .EXYNOS_YV12) 0
        (some junk.hnd) (some 0)).trace).map IonRequest.len = [12544, 3584, 3584]
    ∧ (gralloc_alloc sampleHeaders goodEnv 3 junk 100 100 (sampleFormat .EXYNOS_YV12) 0
        (some junk.hnd) (some 0)).pStride = some 112
    ∧ (gralloc_alloc sampleHeaders goodEnv 3 junk 100 100 (sampleFormat .EXYNOS_YV12) 0
        (some junk.hnd) (some 0)).pHandle
      = some { fd := 10, fd1 := 11, fd2 := 12, size := 12544, flags := 0, width := 100,
               height := 100, format := 284, stride := 112, vstride := 112 } := by
  have h := C10_three_plane_allocation sampleHeaders sampleHeaders_wf goodEnv 3 junk 100 100 0
    junk.hnd 0 (by decide) (by decide) (by decide) rfl rfl rfl (fun _ => rfl)
  refine ⟨?_, ?_, ?_⟩
  · exact congrArg (fun r => (requests r.trace).map IonRequest.len) h
  · exact congrArg AllocResult.pStride h
  · exact congrArg AllocResult.pHandle h

/-- C17: if the handle passed to `gralloc_free` fails validation
(`private_handle_t::validate` returns a negative value), `gralloc_free` returns
`-EINVAL` and makes no call at all: no unmapping, no release, no destruction. -/
theorem C17_free_invalid_handle (H : Headers) (env : Collaborators) (hnd : private_handle_t)
    (hinvalid : env.validate hnd < 0) :
    gralloc_free H env hnd = (-H.EINVAL, [])
    ∧ unmapped (gralloc_free H env hnd).2 = []
    ∧ released (gralloc_free H env hnd).2 = [] := by
  simp [gralloc_free, hinvalid, unmapped, released]

/-- C17, an instance: a handle that validation rejects with -22. -/
theorem C17_free_invalid_handle_witness :
    gralloc_free sampleHeaders
        { ion_alloc_fd := fun n _ => { err := 0, fd := 10 + n }, close := fun _ => 0,
          grallocMap := fun _ => 0, validate := fun _ => -22 }
        (private_handle_t.new2 4 5 4096 0 64 64 261 64 64) = (-22, []) :=
  (C17_free_invalid_handle sampleHeaders
    { ion_alloc_fd := fun n _ => { err := 0, fd := 10 + n }, close := fun _ => 0,
      grallocMap := fun _ => 0, validate := fun _ => -22 }
    (private_handle_t.new2 4 5 4096 0 64 64 261 64 64) (by decide)).1

/-- C18: if either output slot (the handle destination or the stride destination) is
null, `gralloc_alloc` returns `-EINVAL` for every width, height, format and usage, and
makes no pool request and no mapping call (its trace is empty); the other slot is left
as it was. -/
theorem C18_null_output_slot (H : Headers) (env : Collaborators) (ionfd : Int) (uninit : Outs)
    (w h format : Int) (usage : Nat)
    (pHandle : Option private_handle_t) (pStride : Option Int)
    (hnull : pHandle = none ∨ pStride = none) :
    gralloc_alloc H env ionfd uninit w h format usage pHandle pStride =
      { ret := -H.EINVAL, pHandle := pHandle, pStride := pStride, trace := [] }
    ∧ requests (gralloc_alloc H env ionfd uninit w h format usage pHandle pStride).trace = []
    ∧ mapped (gralloc_alloc H env ionfd uninit w h format usage pHandle pStride).trace = [] := by
  simp [gralloc_alloc, hnull, requests, mapped]

/-- C18, an instance: a null stride destination with an otherwise valid request. -/
theorem C18_null_output_slot_witness :
    gralloc_alloc sampleHeaders goodEnv 3 junk 100 100 (sampleFormat .RGBA_8888) 0
        (some junk.hnd) none =
      { ret := -22, pHandle := some junk.hnd, pStride := none, trace := [] } :=
  (C18_null_output_slot sampleHeaders goodEnv 3 junk 100 100 (sampleFormat .RGBA_8888) 0
    (some junk.hnd) none (Or.inr rfl)).1

/-- The function `gralloc_alloc_framework_yuv` on its two formats, unfolded. -/
theorem gralloc_alloc_framework_yuv_eq {H : Headers} (hH : H.WF) (env : Collaborators)
    (ionfd w h : Int) (p : PixelFormat) (usage ion_flags : Nat) (o : Outs) (tr : List Event)
    (hp : p = .YV12 ∨ p = .YCrCb_420_SP) (stride : Int)
    (hstride : stride = if p = .YV12 then ALIGN_int w 16 else w) :
    gralloc_alloc_framework_yuv H env ionfd w h (H.HAL_PIXEL_FORMAT p) usage ion_flags o tr =
      if (env.ion_alloc_fd (requests tr).length
          { ionfd := ionfd, len := u32 (idiv (imul (imul stride h) 3) 2), align := 0,
            heap_mask := (1 <<< H.ION_HEAP_TYPE_SYSTEM) % 4294967296,
            flags := ion_flags }).err ≠ 0 then
        { err := (env.ion_alloc_fd (requests tr).length
            { ionfd := ionfd, len := u32 (idiv (imul (imul stride h) 3) 2), align := 0,
              heap_mask := (1 <<< H.ION_HEAP_TYPE_SYSTEM) % 4294967296,
              flags := ion_flags }).err,
          outs := { o with stride := stride },
          trace := tr ++ [Event.ion_alloc_fd
            { ionfd := ionfd, len := u32 (idiv (imul (imul stride h) 3) 2), align := 0,
              heap_mask := (1 <<< H.ION_HEAP_TYPE_SYSTEM) % 4294967296,
              flags := ion_flags }
            (env.ion_alloc_fd (requests tr).length
              { ionfd := ionfd, len := u32 (idiv (imul (imul stride h) 3) 2), align := 0,
                heap_mask := (1 <<< H.ION_HEAP_TYPE_SYSTEM) % 4294967296,
                flags := ion_flags })] }
      else
        { err := (env.ion_alloc_fd (requests tr).length
            { ionfd := ionfd, len := u32 (idiv (imul (imul stride h) 3) 2), align := 0,
              heap_mask := (1 <<< H.ION_HEAP_TYPE_SYSTEM) % 4294967296,
              flags := ion_flags }).err,
          outs :=
            { hnd := private_handle_t.new1 (env.ion_alloc_fd (requests tr).length
                { ionfd := ionfd, len := u32 (idiv (imul (imul stride h) 3) 2), align := 0,
                  heap_mask := (1 <<< H.ION_HEAP_TYPE_SYSTEM) % 4294967296,
                  flags := ion_flags }).fd (u32 (idiv (imul (imul stride h) 3) 2)) usage w h
                (H.HAL_PIXEL_FORMAT p) stride h,
              stride := stride },
          trace := tr ++ [Event.ion_alloc_fd
            { ionfd := ionfd, len := u32 (idiv (imul (imul stride h) 3) 2), align := 0,
              heap_mask := (1 <<< H.ION_HEAP_TYPE_SYSTEM) % 4294967296,
              flags := ion_flags }
            (env.ion_alloc_fd (requests tr).length
              { ionfd := ionfd, len := u32 (idiv (imul (imul stride h) 3) 2), align := 0,
                heap_mask := (1 <<< H.ION_HEAP_TYPE_SYSTEM) % 4294967296,
                flags := ion_flags }),
            Event.new_handle (private_handle_t.new1 (env.ion_alloc_fd (requests tr).length
                { ionfd := ionfd, len := u32 (idiv (imul (imul stride h) 3) 2), align := 0,
                  heap_mask := (1 <<< H.ION_HEAP_TYPE_SYSTEM) % 4294967296,
                  flags := ion_flags }).fd (u32 (idiv (imul (imul stride h) 3) 2)) usage w h
                (H.HAL_PIXEL_FORMAT p) stride h)] } := by
  subst hstride
  rcases hp with rfl | rfl
  · simp only [gralloc_alloc_framework_yuv, call_ion_alloc_fd, if_true, List.append_assoc,
      List.singleton_append]
  · simp [gralloc_alloc_framework_yuv, call_ion_alloc_fd, hH.tag_eq_iff]

/-- What the handle of a successful plane allocation (lines 240 to 257) records. -/
theorem gralloc_alloc_yuv_planes_handle (env : Collaborators) (ionfd w h format : Int)
    (usage ion_flags heap_mask luma_size chroma_size planes luma_vstride : Nat) (o : Outs)
    (tr : List Event)
    (herr : (gralloc_alloc_yuv_planes env ionfd w h format usage ion_flags heap_mask
        luma_size chroma_size planes luma_vstride o tr).err = 0) :
    (gralloc_alloc_yuv_planes env ionfd w h format usage ion_flags heap_mask
        luma_size chroma_size planes luma_vstride o tr).outs.stride = o.stride
    ∧ (gralloc_alloc_yuv_planes env ionfd w h format usage ion_flags heap_mask
        luma_size chroma_size planes luma_vstride o tr).outs.hnd.stride = o.stride
    ∧ (gralloc_alloc_yuv_planes env ionfd w h format usage ion_flags heap_mask
        luma_size chroma_size planes luma_vstride o tr).outs.hnd.vstride = s32 luma_vstride
    ∧ (gralloc_alloc_yuv_planes env ionfd w h format usage ion_flags heap_mask
        luma_size chroma_size planes luma_vstride o tr).outs.hnd.size = luma_size := by
  revert herr
  simp only [gralloc_alloc_yuv_planes, call_ion_alloc_fd, call_close, requests,
    List.filterMap_append, List.filterMap_cons, List.filterMap_nil, Event.request?,
    List.length_append, List.length_cons, List.length_nil, Nat.zero_add]
  generalize env.ion_alloc_fd (List.filterMap Event.request? tr).length _ = r0
  generalize env.ion_alloc_fd ((List.filterMap Event.request? tr).length + 1) _ = r1
  generalize env.ion_alloc_fd ((List.filterMap Event.request? tr).length + 1 + 1) _ = r2
  by_cases h0 : r0.err = 0
  · by_cases h1 : r1.err = 0
    · by_cases hp : planes = 3
      · by_cases h2 : r2.err = 0
        · simp [h0, h1, h2, hp, private_handle_t.new3]
        · simp [h0, h1, h2, hp]
      · simp [h0, h1, hp, private_handle_t.new2]
    · simp [h0, h1]
  · simp [h0]

/-- A zero return of `gralloc_alloc` comes from a successful allocation attempt, whose
handle and stride are what the output slots receive. -/
theorem gralloc_alloc_success (H : Headers) (env : Collaborators) (ionfd : Int) (uninit : Outs)
    (w h format : Int) (usage : Nat) (a : private_handle_t) (b : Int) (r : Ret)
    (hr : r = if (gralloc_alloc_rgb H env ionfd w h format usage (ion_flags_of H usage)
            uninit []).err ≠ 0 then
          gralloc_alloc_yuv H env ionfd w h format usage (ion_flags_of H usage)
            (gralloc_alloc_rgb H env ionfd w h format usage (ion_flags_of H usage) uninit []).outs
            (gralloc_alloc_rgb H env ionfd w h format usage (ion_flags_of H usage) uninit []).trace
        else gralloc_alloc_rgb H env ionfd w h format usage (ion_flags_of H usage) uninit [])
    (hret : (gralloc_alloc H env ionfd uninit w h format usage (some a) (some b)).ret = 0) :
    r.err = 0
    ∧ (gralloc_alloc H env ionfd uninit w h format usage (some a) (some b)).pHandle
      = some r.outs.hnd
    ∧ (gralloc_alloc H env ionfd uninit w h format usage (some a) (some b)).pStride
      = some r.outs.stride := by
  rw [gralloc_alloc_tail H env ionfd uninit w h format usage a b r hr] at hret ⊢
  by_cases h0 : r.err = 0
  · by_cases hm : env.grallocMap r.outs.hnd = 0
    · simp [h0, hm]
    · simp [h0, hm] at hret
  · simp [h0] at hret

/-- A zero return of `gralloc_alloc` on a packed format: the packed attempt succeeded. -/
theorem gralloc_alloc_success_packed {H : Headers} (hH : H.WF) (env : Collaborators)
    (ionfd : Int) (uninit : Outs) (w h : Int) (p : PixelFormat) (bpp : Nat) (usage : Nat)
    (a : private_handle_t) (b : Int) (hb : packed_bpp p = some bpp)
    (hret : (gralloc_alloc H env ionfd uninit w h (H.HAL_PIXEL_FORMAT p) usage
      (some a) (some b)).ret = 0) :
    (gralloc_alloc H env ionfd uninit w h (H.HAL_PIXEL_FORMAT p) usage (some a) (some b)).pHandle
      = some (gralloc_alloc_rgb H env ionfd w h (H.HAL_PIXEL_FORMAT p) usage
          (ion_flags_of H usage) uninit []).outs.hnd
    ∧ (gralloc_alloc H env ionfd uninit w h (H.HAL_PIXEL_FORMAT p) usage (some a)
        (some b)).pStride
      = some (gralloc_alloc_rgb H env ionfd w h (H.HAL_PIXEL_FORMAT p) usage
          (ion_flags_of H usage) uninit []).outs.stride := by
  have hne := neg_einval_ne_zero hH
  obtain ⟨h0, h1, h2⟩ := gralloc_alloc_success H env ionfd uninit w h (H.HAL_PIXEL_FORMAT p)
    usage a b _ rfl hret
  rw [h1, h2]
  by_cases hz : (gralloc_alloc_rgb H env ionfd w h (H.HAL_PIXEL_FORMAT p) usage
      (ion_flags_of H usage) uninit []).err = 0
  · simp [hz]
  · simp [hz, gralloc_alloc_yuv_packed hH env ionfd w h p bpp usage _ _ _ hb, hne] at h0

/-- A zero return of `gralloc_alloc` on a recognized format that is not packed: the
planar attempt succeeded. -/
theorem gralloc_alloc_success_planar {H : Headers} (hH : H.WF) (env : Collaborators)
    (ionfd : Int) (uninit : Outs) (w h : Int) (p : PixelFormat) (usage : Nat)
    (a : private_handle_t) (b : Int) (hb : packed_bpp p = none)
    (hret : (gralloc_alloc H env ionfd uninit w h (H.HAL_PIXEL_FORMAT p) usage
      (some a) (some b)).ret = 0) :
    (gralloc_alloc_yuv H env ionfd w h (H.HAL_PIXEL_FORMAT p) usage (ion_flags_of H usage)
        uninit []).err = 0
    ∧ (gralloc_alloc H env ionfd uninit w h (H.HAL_PIXEL_FORMAT p) usage (some a)
        (some b)).pHandle
      = some (gralloc_alloc_yuv H env ionfd w h (H.HAL_PIXEL_FORMAT p) usage
          (ion_flags_of H usage) uninit []).outs.hnd
    ∧ (gralloc_alloc H env ionfd uninit w h (H.HAL_PIXEL_FORMAT p) usage (some a)
        (some b)).pStride
      = some (gralloc_alloc_yuv H env ionfd w h (H.HAL_PIXEL_FORMAT p) usage
          (ion_flags_of H usage) uninit []).outs.stride := by
  have hne := neg_einval_ne_zero hH
  have hs := gralloc_alloc_success H env ionfd uninit w h (H.HAL_PIXEL_FORMAT p)
    usage a b _ rfl hret
  rw [gralloc_alloc_rgb_not_packed env ionfd w h _ usage _ _ _ (rgb_bpp_not_packed hH p hb)] at hs
  simpa [hne] using hs

theorem round_up_half_le_32 (h : Nat) : round_up (h / 2) 32 ≤ round_up h 32 := by
  unfold round_up
  omega

theorem packed_bpp_two_plane (p : PixelFormat) (hp : plane_count p = 2) :
    packed_bpp p = none := by
  cases p <;> simp [plane_count] at hp <;> rfl

/-- C11: for the two-plane semi-planar formats (`EXYNOS_YCrCb_420_SP`, `YCbCr_420_SP`,
`YCbCr_420_SP_TILED`) and every width `w` and height `h` without 32-bit overflow
(`w + 15 < 2^31`, `h + 31 < 2^31`, `s * round_up(h,32) < 2^32`), with
`s = round_up(w,16)`: when the two pool requests and the mapping succeed,
`gralloc_alloc` makes exactly two pool requests, in order, of sizes `s*round_up(h,32)`
(luma) and `s*round_up(h/2,32)` (chroma); the handle holds exactly those two
descriptors (the third reference is absent) and records size `s*round_up(h,32)`,
stride `s` and vertical stride `round_up(h,32)`; the stride output is `s` and the
return value 0. -/
theorem C11_two_plane_allocation (H : Headers) (hH : H.WF) (env : Collaborators)
    (ionfd : Int) (uninit : Outs) (w h : Nat) (p : PixelFormat) (usage : Nat)
    (slotH : private_handle_t) (slotS : Int)
    (hp : plane_count p = 2)
    (hw : w + 15 < 2147483648) (hh : h + 31 < 2147483648)
    (hsize : round_up w 16 * round_up h 32 < 4294967296)
    (h0 : (env.ion_alloc_fd 0
      { ionfd := ionfd, len := round_up w 16 * round_up h 32, align := 0,
        heap_mask := _select_heap H usage, flags := ion_flags_of H usage }).err = 0)
    (h1 : (env.ion_alloc_fd 1
      { ionfd := ionfd, len := round_up w 16 * round_up (h / 2) 32, align := 0,
        heap_mask := _select_heap H usage, flags := ion_flags_of H usage }).err = 0)
    (hmap : ∀ hnd, env.grallocMap hnd = 0) :
    gralloc_alloc H env ionfd uninit w h (H.HAL_PIXEL_FORMAT p) usage
        (some slotH) (some slotS) =
      (let luma : IonRequest :=
        { ionfd := ionfd, len := round_up w 16 * round_up h 32, align := 0,
          heap_mask := _select_heap H usage, flags := ion_flags_of H usage }
       let chroma : IonRequest :=
        { ionfd := ionfd, len := round_up w 16 * round_up (h / 2) 32,
          align := 0, heap_mask := _select_heap H usage, flags := ion_flags_of H usage }
       let hnd : private_handle_t :=
        { fd := (env.ion_alloc_fd 0 luma).fd, fd1 := (env.ion_alloc_fd 1 chroma).fd,
          fd2 := -1, size := round_up w 16 * round_up h 32,
          flags := usage, width := w, height := h,
          format := H.HAL_PIXEL_FORMAT p,
          stride := ((round_up w 16 : Nat) : Int), vstride := ((round_up h 32 : Nat) : Int) }
       { ret := 0, pHandle := some hnd, pStride := some ((round_up w 16 : Nat) : Int),
         trace := [Event.ion_alloc_fd luma (env.ion_alloc_fd 0 luma),
                   Event.ion_alloc_fd chroma (env.ion_alloc_fd 1 chroma),
                   Event.new_handle hnd, Event.grallocMap hnd 0] }) := by
  have hne := neg_einval_ne_zero hH
  have hrgb := gralloc_alloc_rgb_not_packed env ionfd w h (H.HAL_PIXEL_FORMAT p) usage
    (ion_flags_of H usage) uninit [] (rgb_bpp_not_packed hH _ (packed_bpp_two_plane p hp))
  have r1 := round_up_le w 16
  have r2 := round_up_le h 32
  have r3 := round_up_le (h / 2) 32
  have r4 := round_up_half_le_32 h
  have a1 : ALIGN_int (w : Int) 16 = ((round_up w 16 : Nat) : Int) :=
    ALIGN_int_natCast w 4 (by omega) (by norm_num; omega)
  have a2 : ALIGN_int (h : Int) 32 = ((round_up h 32 : Nat) : Int) :=
    ALIGN_int_natCast h 5 (by omega) (by norm_num; omega)
  have a3 : u32 ((round_up w 16 : Nat) : Int) = round_up w 16 := u32_natCast _ (by omega)
  have a4 : u32 ((round_up h 32 : Nat) : Int) = round_up h 32 := u32_natCast _ (by omega)
  have a5 : umul (round_up h 32) (round_up w 16) = round_up w 16 * round_up h 32 := by
    unfold umul
    rw [Nat.mul_comm]
    exact Nat.mod_eq_of_lt hsize
  have a6 : idiv (h : Int) 2 = ((h / 2 : Nat) : Int) := idiv_two _ (by omega)
  have a7 : ALIGN_int ((h / 2 : Nat) : Int) 32 = ((round_up (h / 2) 32 : Nat) : Int) :=
    ALIGN_int_natCast _ 5 (by omega) (by norm_num; omega)
  have a8 : u32 ((round_up (h / 2) 32 : Nat) : Int) = round_up (h / 2) 32 :=
    u32_natCast _ (by omega)
  have hchroma : round_up w 16 * round_up (h / 2) 32 ≤ round_up w 16 * round_up h 32 :=
    Nat.mul_le_mul (Nat.le_refl _) r4
  have a9 : umul (round_up (h / 2) 32) (round_up w 16)
      = round_up w 16 * round_up (h / 2) 32 := by
    unfold umul
    rw [Nat.mul_comm]
    exact Nat.mod_eq_of_lt (by omega)
  have a10 : s32 (round_up h 32) = ((round_up h 32 : Nat) : Int) := s32_of_lt _ (by omega)
  simp only [gralloc_alloc, hrgb, gralloc_alloc_yuv_two hH env ionfd _ _ p usage _ _ _ hp,
    a1, a2, a3, a4, a5, a6, a7, a8, a9, a10,
    gralloc_alloc_yuv_planes, call_ion_alloc_fd, requests, Event.request?,
    List.filterMap_nil, List.filterMap_cons, List.filterMap_append, List.nil_append,
    List.length_nil, List.length_cons, List.length_append, List.singleton_append,
    List.cons_append, Nat.zero_add, h0, h1, hmap, private_handle_t.new2]
  simp [hne]

/-- C11, an instance: `YCbCr_420_SP`, width 100 and height 100 give the sizes 14336
(luma, 112 x 128) and 7168 (chroma, 112 x 64), the stride 112 and the vertical stride
128. -/
theorem C11_two_plane_allocation_witness :
    (requests (gralloc_alloc sampleHeaders goodEnv 3 junk 100 100 (sampleFormat .YCbCr_420_SP) 0
        (some junk.hnd) (some 0)).trace).map IonRequest.len = [14336, 7168]
    ∧ (gralloc_alloc sampleHeaders goodEnv 3 junk 100 100 (sampleFormat .YCbCr_420_SP) 0
        (some junk.hnd) (some 0)).pStride = some 112
    ∧ (gralloc_alloc sampleHeaders goodEnv 3 junk 100 100 (sampleFormat .YCbCr_420_SP) 0
        (some junk.hnd) (some 0)).pHandle
      = some { fd := 10, fd1 := 11, fd2 := -1, size := 14336, flags := 0, width := 100,
               height := 100, format := 261, stride := 112, vstride := 128 } := by
  have h := C11_two_plane_allocation sampleHeaders sampleHeaders_wf goodEnv 3 junk 100 100
    .YCbCr_420_SP 0 junk.hnd 0 rfl (by decide) (by decide) (by decide) rfl rfl (fun _ => rfl)
  refine ⟨?_, ?_, ?_⟩
  · exact congrArg (fun r => (requests r.trace).map IonRequest.len) h
  · exact congrArg AllocResult.pStride h
  · exact congrArg AllocResult.pHandle h

theorem imul_three (a : Nat) (h : a * 3 < 2147483648) :
    imul (a : Int) 3 = ((a * 3 : Nat) : Int) := by
  have := imul_natCast a 3 h
  simpa using this

theorem packed_bpp_framework (p : PixelFormat) (hp : p = .YV12 ∨ p = .YCrCb_420_SP) :
    packed_bpp p = none := by
  rcases hp with rfl | rfl <;> rfl

/-- C12: for the framework-native formats and every width `w` and height `h` without
32-bit overflow (`w + 15 < 2^31`, `stride * h * 3 < 2^31`), the stride being
`round_up(w,16)` for `YV12` and exactly `w` for `YCrCb_420_SP`: `gralloc_alloc` makes
exactly one pool request, of size `(stride*h*3)/2`; when the request and the mapping
succeed, the result is 0 with a handle that has exactly one backing resource and
records that size, that stride and the vertical stride `h`, and the stride output is
the stride; when the request fails with `e`, `e` is returned, no handle is constructed
and the output slots stay as they were. -/
theorem C12_framework_native_allocation (H : Headers) (hH : H.WF) (env : Collaborators)
    (ionfd : Int) (uninit : Outs) (w h : Nat) (p : PixelFormat) (usage : Nat)
    (slotH : private_handle_t) (slotS : Int) (stride : Nat)
    (hp : p.frameworkNative)
    (hstride : stride = if p = PixelFormat.YV12 then round_up w 16 else w)
    (hw : w + 15 < 2147483648) (hsize : stride * h * 3 < 2147483648) :
    ((env.ion_alloc_fd 0
        { ionfd := ionfd, len := stride * h * 3 / 2, align := 0,
          heap_mask := (1 <<< H.ION_HEAP_TYPE_SYSTEM) % 4294967296,
          flags := ion_flags_of H usage }).err = 0 →
      (∀ hnd, env.grallocMap hnd = 0) →
      gralloc_alloc H env ionfd uninit w h (H.HAL_PIXEL_FORMAT p) usage
          (some slotH) (some slotS) =
        (let req : IonRequest :=
          { ionfd := ionfd, len := stride * h * 3 / 2, align := 0,
            heap_mask := (1 <<< H.ION_HEAP_TYPE_SYSTEM) % 4294967296,
            flags := ion_flags_of H usage }
         let hnd : private_handle_t :=
          { fd := (env.ion_alloc_fd 0 req).fd, fd1 := -1, fd2 := -1,
            size := stride * h * 3 / 2, flags := usage, width := w, height := h,
            format := H.HAL_PIXEL_FORMAT p, stride := (stride : Int), vstride := (h : Int) }
         { ret := 0, pHandle := some hnd, pStride := some (stride : Int),
           trace := [Event.ion_alloc_fd req (env.ion_alloc_fd 0 req), Event.new_handle hnd,
                     Event.grallocMap hnd 0] }))
    ∧ ((env.ion_alloc_fd 0
        { ionfd := ionfd, len := stride * h * 3 / 2, align := 0,
          heap_mask := (1 <<< H.ION_HEAP_TYPE_SYSTEM) % 4294967296,
          flags := ion_flags_of H usage }).err ≠ 0 →
      gralloc_alloc H env ionfd uninit w h (H.HAL_PIXEL_FORMAT p) usage
          (some slotH) (some slotS) =
        (let req : IonRequest :=
          { ionfd := ionfd, len := stride * h * 3 / 2, align := 0,
            heap_mask := (1 <<< H.ION_HEAP_TYPE_SYSTEM) % 4294967296,
            flags := ion_flags_of H usage }
         { ret := (env.ion_alloc_fd 0 req).err, pHandle := some slotH, pStride := some slotS,
           trace := [Event.ion_alloc_fd req (env.ion_alloc_fd 0 req)] })) := by
  have hne := neg_einval_ne_zero hH
  have hrgb := gralloc_alloc_rgb_not_packed env ionfd w h (H.HAL_PIXEL_FORMAT p) usage
    (ion_flags_of H usage) uninit [] (rgb_bpp_not_packed hH _ (packed_bpp_framework p hp))
  have r1 := round_up_le w 16
  have hcode : ((stride : Nat) : Int) = if p = PixelFormat.YV12 then ALIGN_int (w : Int) 16
      else (w : Int) := by
    rw [hstride]
    by_cases hy : p = PixelFormat.YV12
    · simp only [hy, if_true]
      exact (ALIGN_int_natCast w 4 (by omega) (by norm_num; omega)).symm
    · simp only [hy, if_false]
  have hsh : stride * h < 2147483648 := by
    have : stride * h ≤ stride * h * 3 := Nat.le_mul_of_pos_right _ (by decide)
    omega
  have a1 : imul (stride : Int) (h : Int) = ((stride * h : Nat) : Int) :=
    imul_natCast stride h hsh
  have a2 : imul ((stride * h : Nat) : Int) 3 = ((stride * h * 3 : Nat) : Int) :=
    imul_three _ hsize
  have a3 : idiv ((stride * h * 3 : Nat) : Int) 2 = ((stride * h * 3 / 2 : Nat) : Int) :=
    idiv_two _ hsize
  have hle : stride * h * 3 / 2 ≤ stride * h * 3 := Nat.div_le_self _ _
  have a4 : u32 ((stride * h * 3 / 2 : Nat) : Int) = stride * h * 3 / 2 :=
    u32_natCast _ (by omega)
  have hfw := gralloc_alloc_framework_yuv_eq hH env ionfd w h p usage (ion_flags_of H usage)
    { uninit with stride := ALIGN_int (w : Int) 16 } [] hp (stride : Int) hcode
  constructor
  · intro h0 hmap
    simp only [gralloc_alloc, hrgb, gralloc_alloc_yuv_framework hH env ionfd _ _ p usage _ _ _ hp,
      hfw, a1, a2, a3, a4, requests, List.filterMap_nil, List.length_nil, h0, hmap,
      private_handle_t.new1]
    simp [hne]
  · intro h0
    simp only [gralloc_alloc, hrgb, gralloc_alloc_yuv_framework hH env ionfd _ _ p usage _ _ _ hp,
      hfw, a1, a2, a3, a4, requests, List.filterMap_nil, List.length_nil]
    simp [hne, h0]

/-- C12, two instances: a 100 x 100 `YV12` buffer (stride 112, size 16800) whose
request succeeds, and a 100 x 100 `YCrCb_420_SP` buffer (stride 100, size 15000) whose
request is refused with -12. -/
theorem C12_framework_native_allocation_witness :
    gralloc_alloc sampleHeaders goodEnv 3 junk 100 100 (sampleFormat .YV12) 0
        (some junk.hnd) (some 0) =
      { ret := 0,
        pHandle := some { fd := 10, fd1 := -1, fd2 := -1, size := 16800, flags := 0,
                          width := 100, height := 100, format := 842094169, stride := 112,
                          vstride := 100 },
        pStride := some 112,
        trace := [Event.ion_alloc_fd
            { ionfd := 3, len := 16800, align := 0, heap_mask := 1, flags := 0 }
            { err := 0, fd := 10 },
          Event.new_handle { fd := 10, fd1 := -1, fd2 := -1, size := 16800, flags := 0,
                             width := 100, height := 100, format := 842094169, stride := 112,
                             vstride := 100 },
          Event.grallocMap { fd := 10, fd1 := -1, fd2 := -1, size := 16800, flags := 0,
                             width := 100, height := 100, format := 842094169, stride := 112,
                             vstride := 100 } 0] }
    ∧ gralloc_alloc sampleHeaders (scriptedEnv 0 (-12) 0) 3 junk 100 100
        (sampleFormat .YCrCb_420_SP) 0 (some junk.hnd) (some 0) =
      { ret := -12, pHandle := some junk.hnd, pStride := some 0,
        trace := [Event.ion_alloc_fd
            { ionfd := 3, len := 15000, align := 0, heap_mask := 1, flags := 0 }
            { err := -12, fd := -7 }] } :=
  ⟨(C12_framework_native_allocation sampleHeaders sampleHeaders_wf goodEnv 3 junk 100 100
      .YV12 0 junk.hnd 0 112 (Or.inl rfl) (by decide) (by decide) (by decide)).1 rfl
      (fun _ => rfl),
   (C12_framework_native_allocation sampleHeaders sampleHeaders_wf (scriptedEnv 0 (-12) 0) 3
      junk 100 100 .YCrCb_420_SP 0 junk.hnd 0 100 (Or.inr rfl) (by decide) (by decide)
      (by decide)).2 (by decide)⟩

/-- Every pool request of a `gralloc_alloc` call carries the flags `ion_flags_of`
derives from the usage. -/
theorem gralloc_alloc_request_flags {H : Headers} (hH : H.WF) (env : Collaborators)
    (ionfd : Int) (uninit : Outs) (w h format : Int) (usage : Nat)
    (pHandle : Option private_handle_t) (pStride : Option Int) :
    ∀ req ∈ requests (gralloc_alloc H env ionfd uninit w h format usage pHandle pStride).trace,
      req.flags = ion_flags_of H usage := by
  by_cases hf : ∃ p, format = H.HAL_PIXEL_FORMAT p
  · obtain ⟨p, rfl⟩ := hf
    cases pHandle with
    | none => simp [gralloc_alloc, requests]
    | some a =>
      cases pStride with
      | none => simp [gralloc_alloc, requests]
      | some b =>
        obtain ⟨r, ⟨⟨L, hL, hmask⟩, _, _, _, _⟩, heq⟩ := gralloc_alloc_dispatch hH env ionfd uninit
          w h p usage a b
        have hreqs : requests (gralloc_alloc H env ionfd uninit w h (H.HAL_PIXEL_FORMAT p) usage
            (some a) (some b)).trace = L := by
          rw [heq]
          by_cases h0 : r.err = 0
          · by_cases hm : env.grallocMap r.outs.hnd = 0
            · simp only [h0, hm, ne_eq, not_true_eq_false, if_false, requests_append, hL]
              simp [requests, Event.request?]
            · simp only [h0, hm, ne_eq, not_true_eq_false, not_false_eq_true, if_true, if_false,
                requests_append, requests_grallocMap_cons, requests_map_close, hL]
              simp [requests]
          · simp only [h0, ne_eq, not_false_eq_true, if_true, hL]
            simp [requests]
        rw [hreqs]
        intro req hreq
        exact (hmask req hreq).2
  · have hf2 : ∀ p, format ≠ H.HAL_PIXEL_FORMAT p := fun p hp => hf ⟨p, hp⟩
    rw [gralloc_alloc_unrecognized hH env ionfd uninit w h format usage pHandle pStride hf2]
    simp [requests]

theorem or_and_left_self (c v : Nat) : (c ||| v) &&& c = c := by
  apply Nat.eq_of_testBit_eq
  intro i
  simp only [Nat.testBit_and, Nat.testBit_or]
  cases Nat.testBit c i <;> cases Nat.testBit v i <;> rfl

theorem or_and_right_self (c v : Nat) : (c ||| v) &&& v = v := by
  apply Nat.eq_of_testBit_eq
  intro i
  simp only [Nat.testBit_and, Nat.testBit_or]
  cases Nat.testBit c i <;> cases Nat.testBit v i <;> rfl

theorem and_or_self_left (c v : Nat) : c &&& (c ||| v) = c := by
  apply Nat.eq_of_testBit_eq
  intro i
  simp only [Nat.testBit_and, Nat.testBit_or]
  cases Nat.testBit c i <;> cases Nat.testBit v i <;> rfl

theorem and_or_self_right (c v : Nat) : v &&& (c ||| v) = v := by
  apply Nat.eq_of_testBit_eq
  intro i
  simp only [Nat.testBit_and, Nat.testBit_or]
  cases Nat.testBit c i <;> cases Nat.testBit v i <;> rfl

/-- The bits of `ion_flags_of`: the cached flag exactly when the software-read field is
"often", the video marker exactly when the protected flag is set, nothing else. -/
theorem ion_flags_of_bits (H : Headers) (usage : Nat) (hc : H.ION_FLAG_CACHED ≠ 0)
    (hd : H.ION_FLAG_CACHED &&& ION_EXYNOS_VIDEO_MASK = 0) :
    (ion_flags_of H usage &&& H.ION_FLAG_CACHED = H.ION_FLAG_CACHED ↔
      usage &&& H.GRALLOC_USAGE_SW_READ_MASK = H.GRALLOC_USAGE_SW_READ_OFTEN)
    ∧ (ion_flags_of H usage &&& ION_EXYNOS_VIDEO_MASK ≠ 0 ↔
      usage &&& H.GRALLOC_USAGE_PROTECTED ≠ 0)
    ∧ ion_flags_of H usage &&& (H.ION_FLAG_CACHED ||| ION_EXYNOS_VIDEO_MASK)
      = ion_flags_of H usage := by
  have hv : ION_EXYNOS_VIDEO_MASK ≠ 0 := by decide
  have hd2 : ION_EXYNOS_VIDEO_MASK &&& H.ION_FLAG_CACHED = 0 := by
    rw [Nat.land_comm]; exact hd
  have hc2 : (0 : Nat) ≠ H.ION_FLAG_CACHED := fun h => hc h.symm
  unfold ion_flags_of
  by_cases h1 : usage &&& H.GRALLOC_USAGE_SW_READ_MASK = H.GRALLOC_USAGE_SW_READ_OFTEN
  · by_cases h2 : usage &&& H.GRALLOC_USAGE_PROTECTED = 0
    · simp [h1, h2, hd, and_or_self_left]
    · simp [h1, h2, or_and_left_self, or_and_right_self, hv]
  · by_cases h2 : usage &&& H.GRALLOC_USAGE_PROTECTED = 0
    · simp [h1, h2, hc2]
    · simp [h1, h2, hd2, hc2, hv, and_or_self_right]

/-- C13: for every usage bitmask, the allocation flags of every pool request of a
`gralloc_alloc` call are: the cached flag, set if and only if the software-read field
of the usage equals software-read-often; the protected-content (video) marker, set if
and only if the protected flag is set in the usage; and no other bit.  (The cached flag
of the ION header is a non-zero flag other than the video marker.) -/
theorem C13_allocation_flags (H : Headers) (hH : H.WF) (env : Collaborators)
    (ionfd : Int) (uninit : Outs) (w h format : Int) (usage : Nat)
    (pHandle : Option private_handle_t) (pStride : Option Int)
    (hc : H.ION_FLAG_CACHED ≠ 0) (hd : H.ION_FLAG_CACHED &&& ION_EXYNOS_VIDEO_MASK = 0) :
    ∀ req ∈ requests (gralloc_alloc H env ionfd uninit w h format usage pHandle pStride).trace,
      (req.flags &&& H.ION_FLAG_CACHED = H.ION_FLAG_CACHED ↔
        usage &&& H.GRALLOC_USAGE_SW_READ_MASK = H.GRALLOC_USAGE_SW_READ_OFTEN)
      ∧ (req.flags &&& ION_EXYNOS_VIDEO_MASK ≠ 0 ↔ usage &&& H.GRALLOC_USAGE_PROTECTED ≠ 0)
      ∧ req.flags &&& (H.ION_FLAG_CACHED ||| ION_EXYNOS_VIDEO_MASK) = req.flags := by
  intro req hreq
  rw [gralloc_alloc_request_flags hH env ionfd uninit w h format usage pHandle pStride req hreq]
  exact ion_flags_of_bits H usage hc hd

/-- C13, an instance: usage `SW_READ_OFTEN | PROTECTED` (0x4003) on a three-plane
buffer; each of the three requests carries the cached flag and the video marker. -/
theorem C13_allocation_flags_witness :
    (requests (gralloc_alloc sampleHeaders goodEnv 3 junk 100 100
        (sampleFormat .EXYNOS_YV12) 16387 (some junk.hnd) (some 0)).trace).length = 3
    ∧ ∀ req ∈ requests (gralloc_alloc sampleHeaders goodEnv 3 junk 100 100
        (sampleFormat .EXYNOS_YV12) 16387 (some junk.hnd) (some 0)).trace,
      (req.flags &&& 1 = 1 ↔ 16387 &&& 15 = 3)
      ∧ (req.flags &&& ION_EXYNOS_VIDEO_MASK ≠ 0 ↔ 16387 &&& 16384 ≠ 0)
      ∧ req.flags &&& (1 ||| ION_EXYNOS_VIDEO_MASK) = req.flags :=
  ⟨by decide,
   C13_allocation_flags sampleHeaders sampleHeaders_wf goodEnv 3 junk 100 100
    (sampleFormat .EXYNOS_YV12) 16387 (some junk.hnd) (some 0) (by decide) (by decide)⟩

theorem packed_bpp_cases {p : PixelFormat} {b : Nat} (h : packed_bpp p = some b) :
    b = 1 ∨ b = 2 ∨ b = 3 ∨ b = 4 := by
  cases p <;> simp [packed_bpp] at h <;> omega

/-- C14 fails as stated: a 1 x 1 `RGB_888` buffer (3 bytes per pixel, no overflow
anywhere) is reported with the stride 5, and `5 * 3 = 15` is not a multiple of 16. -/
theorem C14_counterexample :
    packed_bpp .RGB_888 = some 3
    ∧ (gralloc_alloc sampleHeaders goodEnv 3 junk 1 1 (sampleFormat .RGB_888) 0
        (some junk.hnd) (some 0)).ret = 0
    ∧ (gralloc_alloc sampleHeaders goodEnv 3 junk 1 1 (sampleFormat .RGB_888) 0
        (some junk.hnd) (some 0)).pStride = some 5
    ∧ ¬ (16 ∣ 5 * 3) := by
  decide

/-- C14 (as amended): for every packed format with bytes-per-pixel `b` and every width
and height without 32-bit overflow, a successful `gralloc_alloc` reports a
stride-in-pixels `S` with `S*b >= w` (indeed `S >= w`) and a total size that is a
multiple of the page size; `S*b` is a multiple of 16 when `b` is 1, 2 or 4; for
`b = 3` (`RGB_888`) `S*3` is the largest multiple of 3 that does not exceed the
16-aligned bytes-per-row `round_up(3w,16)`. -/
theorem C14_packed_stride_and_size (H : Headers) (hH : H.WF) (env : Collaborators)
    (ionfd : Int) (uninit : Outs) (w h : Nat) (p : PixelFormat) (b : Nat) (usage : Nat)
    (slotH : private_handle_t) (slotS : Int) (res : AllocResult)
    (hb : packed_bpp p = some b)
    (hw : w * b + 15 < 2147483648) (hh : h + 15 < 2147483648)
    (hsize : round_up (w * b) 16 * round_up h 16 + (H.PAGE_SIZE - 1) < 4294967296)
    (hres : res = gralloc_alloc H env ionfd uninit w h (H.HAL_PIXEL_FORMAT p) usage
      (some slotH) (some slotS))
    (hret : res.ret = 0) :
    ∃ (S : Nat) (hnd : private_handle_t),
      res.pStride = some (S : Int) ∧ res.pHandle = some hnd
      ∧ w ≤ S ∧ w ≤ S * b
      ∧ (b ≠ 3 → 16 ∣ S * b)
      ∧ (b = 3 → S * 3 ≤ round_up (w * 3) 16 ∧ round_up (w * 3) 16 < S * 3 + 3)
      ∧ H.PAGE_SIZE ∣ hnd.size := by
  subst hres
  obtain ⟨hH1, hS1⟩ := gralloc_alloc_success_packed hH env ionfd uninit w h p b usage slotH slotS
    hb hret
  have hrgb := gralloc_alloc_rgb_packed hH env ionfd w h p b usage (ion_flags_of H usage) uninit
    hb hw hh hsize
  rw [hrgb] at hH1 hS1
  have hbpos := packed_bpp_pos hb
  have hle := le_round_up (w * b) 16 (by decide)
  have hdvd := dvd_round_up (w * b) 16
  have hwS : w ≤ round_up (w * b) 16 / b := (Nat.le_div_iff_mul_le (by omega)).mpr hle
  refine ⟨round_up (w * b) 16 / b, _, hS1, hH1, hwS, ?_, ?_, ?_, ?_⟩
  · exact le_trans hwS (Nat.le_mul_of_pos_right _ (by omega))
  · intro hb3
    have hb16 : b ∣ 16 := by
      rcases packed_bpp_cases hb with rfl | rfl | rfl | rfl
      · decide
      · decide
      · exact absurd rfl hb3
      · decide
    rw [Nat.div_mul_cancel (dvd_trans hb16 hdvd)]
    exact hdvd
  · intro hb3
    subst hb3
    constructor
    · exact Nat.div_mul_le_self _ _
    · have := Nat.div_add_mod (round_up (w * 3) 16) 3
      have := Nat.mod_lt (round_up (w * 3) 16) (show 0 < 3 by decide)
      omega
  · exact dvd_round_up _ _

/-- C14, an instance: a 100 x 100 `RGBA_8888` buffer; stride 100, `100 * 4` a multiple
of 16, size a multiple of the page size. -/
theorem C14_packed_stride_and_size_witness :
    ∃ (S : Nat) (hnd : private_handle_t),
      (gralloc_alloc sampleHeaders goodEnv 3 junk 100 100 (sampleFormat .RGBA_8888) 0
        (some junk.hnd) (some 0)).pStride = some (S : Int)
      ∧ (gralloc_alloc sampleHeaders goodEnv 3 junk 100 100 (sampleFormat .RGBA_8888) 0
        (some junk.hnd) (some 0)).pHandle = some hnd
      ∧ 100 ≤ S ∧ 100 ≤ S * 4
      ∧ (4 ≠ 3 → 16 ∣ S * 4)
      ∧ (4 = 3 → S * 3 ≤ round_up (100 * 3) 16 ∧ round_up (100 * 3) 16 < S * 3 + 3)
      ∧ sampleHeaders.PAGE_SIZE ∣ hnd.size :=
  C14_packed_stride_and_size sampleHeaders sampleHeaders_wf goodEnv 3 junk 100 100 .RGBA_8888 4
    0 junk.hnd 0 _ rfl (by decide) (by decide) (by decide) rfl (by decide)

theorem u32_s32 (p : Nat) : u32 (s32 p) = p % 4294967296 := by
  unfold u32 s32
  have hlt : p % 4294967296 < 4294967296 := Nat.mod_lt _ (by decide)
  split <;> omega

theorem s32_mod (p : Nat) : s32 (p % 4294967296) = s32 p := by
  unfold s32
  rw [Nat.mod_mod]

theorem s32_u32_s32 (p : Nat) : s32 (u32 (s32 p)) = s32 p := by
  rw [u32_s32, s32_mod]

/-- The macro `ALIGN` yields a multiple of the alignment, also when the addition wraps. -/
theorem ALIGN_dvd (x k : Nat) (hk : k ≤ 31) : 2 ^ k ∣ ALIGN x (2 ^ k) := by
  unfold ALIGN
  have hp := pow_le_of_le_31 k hk
  have h2 : (2 ^ k - 1) % 4294967296 = 2 ^ k - 1 := Nat.mod_eq_of_lt (by omega)
  have hy : (x + (2 ^ k - 1)) % 4294967296 < 2 ^ 32 := by
    norm_num
    exact Nat.mod_lt _ (by decide)
  have := and_not_low_mask ((x + (2 ^ k - 1)) % 4294967296) k (by omega) hy
  rw [h2]
  have h3 : (2 : Nat) ^ 32 - 1 = 4294967295 := by norm_num
  rw [h3] at this
  rw [this]
  exact Nat.dvd_mul_left _ _

theorem s32_dvd (p d : Nat) (hd : d ∣ 4294967296) (hp : d ∣ p) : (d : Int) ∣ s32 p := by
  unfold s32
  have h1 : d ∣ p % 4294967296 := (Nat.dvd_mod_iff hd).mpr hp
  have h2 : (d : Int) ∣ ((p % 4294967296 : Nat) : Int) := Int.natCast_dvd_natCast.mpr h1
  have h3 : (d : Int) ∣ (4294967296 : Int) := by
    have := Int.natCast_dvd_natCast.mpr hd
    simpa using this
  split
  · exact h2
  · exact dvd_sub h2 h3

theorem ALIGN_int_dvd_16 (x : Int) : (16 : Int) ∣ ALIGN_int x 16 := by
  have h := s32_dvd (ALIGN (u32 x) 16) 16 (by decide) (ALIGN_dvd (u32 x) 4 (by decide))
  simpa [ALIGN_int] using h

theorem ALIGN_int_dvd_32 (x : Int) : (32 : Int) ∣ ALIGN_int x 32 := by
  have h := s32_dvd (ALIGN (u32 x) 32) 32 (by decide) (ALIGN_dvd (u32 x) 5 (by decide))
  simpa [ALIGN_int] using h

theorem s32_u32_ALIGN_int (x : Int) (a : Nat) : s32 (u32 (ALIGN_int x a)) = ALIGN_int x a := by
  unfold ALIGN_int
  exact s32_u32_s32 _

theorem gralloc_alloc_rgb_vstride {H : Headers} (hH : H.WF) (env : Collaborators)
    (ionfd w h : Int) (p : PixelFormat) (b : Nat) (usage ion_flags : Nat) (o : Outs)
    (tr : List Event) (hb : packed_bpp p = some b) :
    (gralloc_alloc_rgb H env ionfd w h (H.HAL_PIXEL_FORMAT p) usage ion_flags o
      tr).outs.hnd.vstride = ALIGN_int h 16 := by
  simp only [gralloc_alloc_rgb, rgb_bpp_tag hH, hb, Option.map, call_ion_alloc_fd,
    private_handle_t.new1]

/-- C15 fails as stated: the handle of a successful 100 x 100 `RGBA_8888` allocation
records the stride 100, and the handle of a successful 100 x 100 `YCrCb_420_SP`
allocation records the stride 100 and the vertical stride 100; 100 is not a multiple
of 16. -/
theorem C15_counterexample :
    (gralloc_alloc sampleHeaders goodEnv 3 junk 100 100 (sampleFormat .RGBA_8888) 0
        (some junk.hnd) (some 0)).ret = 0
    ∧ (gralloc_alloc sampleHeaders goodEnv 3 junk 100 100 (sampleFormat .RGBA_8888) 0
        (some junk.hnd) (some 0)).pHandle.map private_handle_t.stride = some 100
    ∧ (gralloc_alloc sampleHeaders goodEnv 3 junk 100 100 (sampleFormat .YCrCb_420_SP) 0
        (some junk.hnd) (some 0)).ret = 0
    ∧ (gralloc_alloc sampleHeaders goodEnv 3 junk 100 100 (sampleFormat .YCrCb_420_SP) 0
        (some junk.hnd) (some 0)).pHandle.map private_handle_t.stride = some 100
    ∧ (gralloc_alloc sampleHeaders goodEnv 3 junk 100 100 (sampleFormat .YCrCb_420_SP) 0
        (some junk.hnd) (some 0)).pHandle.map private_handle_t.vstride = some 100
    ∧ ¬ ((16 : Int) ∣ 100) := by
  decide

/-- C15 (as amended): every handle produced by a successful `gralloc_alloc`, for every
recognized format and every width and height, records: for the packed formats a
vertical stride that is a multiple of 16; for the three-plane format a stride and a
vertical stride that are multiples of 16; for the semi-planar family a stride that is
a multiple of 16 and a vertical stride that is a multiple of 32; for the
framework-native `YV12` a stride that is a multiple of 16 and the vertical stride `h`;
for the framework-native `YCrCb_420_SP` the stride `w` and the vertical stride `h`. -/
theorem C15_handle_alignment (H : Headers) (hH : H.WF) (env : Collaborators)
    (ionfd : Int) (uninit : Outs) (w h : Int) (p : PixelFormat) (usage : Nat)
    (slotH : private_handle_t) (slotS : Int) (res : AllocResult)
    (hres : res = gralloc_alloc H env ionfd uninit w h (H.HAL_PIXEL_FORMAT p) usage
      (some slotH) (some slotS))
    (hret : res.ret = 0) :
    ∃ hnd : private_handle_t, res.pHandle = some hnd
      ∧ (packed_bpp p ≠ none → (16 : Int) ∣ hnd.vstride)
      ∧ (p = PixelFormat.EXYNOS_YV12 → (16 : Int) ∣ hnd.stride ∧ (16 : Int) ∣ hnd.vstride)
      ∧ (plane_count p = 2 → (16 : Int) ∣ hnd.stride ∧ (32 : Int) ∣ hnd.vstride)
      ∧ (p = PixelFormat.YV12 → (16 : Int) ∣ hnd.stride ∧ hnd.vstride = h)
      ∧ (p = PixelFormat.YCrCb_420_SP → hnd.stride = w ∧ hnd.vstride = h) := by
  subst hres
  cases hb : packed_bpp p with
  | some b =>
    obtain ⟨hH1, _⟩ := gralloc_alloc_success_packed hH env ionfd uninit w h p b usage slotH
      slotS hb hret
    refine ⟨_, hH1, ?_, ?_, ?_, ?_, ?_⟩
    · intro _
      rw [gralloc_alloc_rgb_vstride hH env ionfd w h p b usage _ _ _ hb]
      exact ALIGN_int_dvd_16 h
    · intro hp; rw [hp] at hb; simp [packed_bpp] at hb
    · intro hp; rw [packed_bpp_two_plane p hp] at hb; simp at hb
    · intro hp; rw [hp] at hb; simp [packed_bpp] at hb
    · intro hp; rw [hp] at hb; simp [packed_bpp] at hb
  | none =>
    obtain ⟨herr, hH1, _⟩ := gralloc_alloc_success_planar hH env ionfd uninit w h p usage slotH
      slotS hb hret
    refine ⟨_, hH1, fun hne => absurd rfl hne, ?_, ?_, ?_, ?_⟩
    · intro hp
      subst hp
      rw [gralloc_alloc_yuv_three] at herr ⊢
      obtain ⟨_, e2, e3, _⟩ := gralloc_alloc_yuv_planes_handle _ _ _ _ _ _ _ _ _ _ _ _ _ _ herr
      rw [e2, e3, s32_u32_ALIGN_int]
      exact ⟨ALIGN_int_dvd_16 w, ALIGN_int_dvd_16 h⟩
    · intro hp
      rw [gralloc_alloc_yuv_two hH env ionfd w h p usage _ _ _ hp] at herr ⊢
      obtain ⟨_, e2, e3, _⟩ := gralloc_alloc_yuv_planes_handle _ _ _ _ _ _ _ _ _ _ _ _ _ _ herr
      rw [e2, e3, s32_u32_ALIGN_int]
      exact ⟨ALIGN_int_dvd_16 w, ALIGN_int_dvd_32 h⟩
    · intro hp
      subst hp
      have hfw := gralloc_alloc_framework_yuv_eq hH env ionfd w h .YV12 usage
        (ion_flags_of H usage) { uninit with stride := ALIGN_int w 16 } [] (Or.inl rfl)
        (ALIGN_int w 16) (by simp)
      rw [gralloc_alloc_yuv_framework hH env ionfd w h .YV12 usage _ _ _ (Or.inl rfl), hfw]
        at herr ⊢
      revert herr
      generalize env.ion_alloc_fd _ _ = r0
      intro herr
      by_cases h0 : r0.err = 0
      · simp only [h0, ne_eq, not_true_eq_false, if_false, private_handle_t.new1, and_true]
        exact ALIGN_int_dvd_16 w
      · simp [h0] at herr
    · intro hp
      subst hp
      have hfw := gralloc_alloc_framework_yuv_eq hH env ionfd w h .YCrCb_420_SP usage
        (ion_flags_of H usage) { uninit with stride := ALIGN_int w 16 } [] (Or.inr rfl)
        w (by simp)
      rw [gralloc_alloc_yuv_framework hH env ionfd w h .YCrCb_420_SP usage _ _ _ (Or.inr rfl),
        hfw] at herr ⊢
      revert herr
      generalize env.ion_alloc_fd _ _ = r0
      intro herr
      by_cases h0 : r0.err = 0
      · simp only [h0, ne_eq, not_true_eq_false, if_false, private_handle_t.new1, and_true]
      · simp [h0] at herr

/-- C15, an instance: the handle of a 100 x 100 `YCbCr_420_SP` buffer (stride 112,
vertical stride 128). -/
theorem C15_handle_alignment_witness :
    ∃ hnd : private_handle_t,
      (gralloc_alloc sampleHeaders goodEnv 3 junk 100 100 (sampleFormat .YCbCr_420_SP) 0
        (some junk.hnd) (some 0)).pHandle = some hnd
      ∧ (16 : Int) ∣ hnd.stride ∧ (32 : Int) ∣ hnd.vstride := by
  obtain ⟨hnd, h1, _, _, h4, _, _⟩ := C15_handle_alignment sampleHeaders sampleHeaders_wf goodEnv
    3 junk 100 100 .YCbCr_420_SP 0 junk.hnd 0 _ rfl (by decide)
  exact ⟨hnd, h1, h4 rfl⟩

/-- The sizes `gralloc_alloc_yuv` passes on for the three-plane format, without
32-bit overflow. -/
theorem gralloc_alloc_yuv_three_sizes {H : Headers} (env : Collaborators)
    (ionfd : Int) (w h : Nat) (usage ion_flags : Nat) (o : Outs) (tr : List Event)
    (hw : w + 15 < 2147483648) (hh : h + 15 < 2147483648)
    (hsize : round_up w 16 * round_up h 16 < 4294967296) :
    gralloc_alloc_yuv H env ionfd w h (H.HAL_PIXEL_FORMAT .EXYNOS_YV12) usage ion_flags o tr =
      gralloc_alloc_yuv_planes env ionfd w h (H.HAL_PIXEL_FORMAT .EXYNOS_YV12) usage ion_flags
        (_select_heap H usage)
        (round_up w 16 * round_up h 16)
        (round_up h 16 / 2 * round_up (round_up w 16 / 2) 16)
        3 (round_up h 16) { o with stride := ((round_up w 16 : Nat) : Int) } tr := by
  have r1 := round_up_le w 16
  have r2 := round_up_le h 16
  have r3 := round_up_le (round_up w 16 / 2) 16
  have r4 := round_up_half_le w
  have a1 : ALIGN_int (w : Int) 16 = ((round_up w 16 : Nat) : Int) :=
    ALIGN_int_natCast w 4 (by omega) (by norm_num; omega)
  have a2 : ALIGN_int (h : Int) 16 = ((round_up h 16 : Nat) : Int) :=
    ALIGN_int_natCast h 4 (by omega) (by norm_num; omega)
  have a3 : u32 ((round_up w 16 : Nat) : Int) = round_up w 16 := u32_natCast _ (by omega)
  have a4 : u32 ((round_up h 16 : Nat) : Int) = round_up h 16 := u32_natCast _ (by omega)
  have a5 : umul (round_up h 16) (round_up w 16) = round_up w 16 * round_up h 16 := by
    unfold umul
    rw [Nat.mul_comm]
    exact Nat.mod_eq_of_lt hsize
  have a6 : idiv ((round_up w 16 : Nat) : Int) 2 = ((round_up w 16 / 2 : Nat) : Int) :=
    idiv_two _ (by omega)
  have a7 : ALIGN_int ((round_up w 16 / 2 : Nat) : Int) 16
      = ((round_up (round_up w 16 / 2) 16 : Nat) : Int) :=
    ALIGN_int_natCast _ 4 (by omega) (by norm_num; omega)
  have a8 : u32 ((round_up (round_up w 16 / 2) 16 : Nat) : Int)
      = round_up (round_up w 16 / 2) 16 := u32_natCast _ (by omega)
  have hchroma : round_up h 16 / 2 * round_up (round_up w 16 / 2) 16
      ≤ round_up h 16 * round_up w 16 :=
    Nat.mul_le_mul (Nat.div_le_self _ _) r4
  have a9 : umul (round_up h 16 / 2) (round_up (round_up w 16 / 2) 16)
      = round_up h 16 / 2 * round_up (round_up w 16 / 2) 16 := by
    unfold umul
    apply Nat.mod_eq_of_lt
    rw [Nat.mul_comm (round_up h 16) (round_up w 16)] at hchroma
    omega
  rw [gralloc_alloc_yuv_three]
  simp only [a1, a2, a3, a4, a5, a6, a7, a8, a9]

/-- C16: for the three-plane path and every width and height without 32-bit overflow,
`gralloc_alloc_yuv` allocates planes of the luma size `L = s*v` and the chroma size
`C = (v/2)*round_up(s/2,16)` (with `s = round_up(w,16)`, `v = round_up(h,16)`), and
`L >= w*h`, `L/2 <= 2*C <= L/2 + 8*v`, so `L + 2*C >= (3*w*h)/2`. -/
theorem C16_three_plane_footprint (H : Headers) (env : Collaborators)
    (ionfd : Int) (w h : Nat) (usage ion_flags : Nat) (o : Outs) (tr : List Event)
    (L C v : Nat)
    (hw : w + 15 < 2147483648) (hh : h + 15 < 2147483648)
    (hsize : round_up w 16 * round_up h 16 < 4294967296)
    (hL : L = round_up w 16 * round_up h 16)
    (hC : C = round_up h 16 / 2 * round_up (round_up w 16 / 2) 16)
    (hv : v = round_up h 16) :
    gralloc_alloc_yuv H env ionfd w h (H.HAL_PIXEL_FORMAT .EXYNOS_YV12) usage ion_flags o tr =
      gralloc_alloc_yuv_planes env ionfd w h (H.HAL_PIXEL_FORMAT .EXYNOS_YV12) usage ion_flags
        (_select_heap H usage) L C 3 v { o with stride := ((round_up w 16 : Nat) : Int) } tr
    ∧ w * h ≤ L ∧ L / 2 ≤ 2 * C ∧ 2 * C ≤ L / 2 + 8 * v ∧ 3 * w * h / 2 ≤ L + 2 * C := by
  subst hL hC hv
  refine ⟨gralloc_alloc_yuv_three_sizes env ionfd w h usage ion_flags o tr hw hh hsize, ?_⟩
  obtain ⟨a, ha⟩ := dvd_round_up w 16
  obtain ⟨c, hc⟩ := dvd_round_up h 16
  have hws := le_round_up w 16 (by decide)
  have hhv := le_round_up h 16 (by decide)
  have hwh : w * h ≤ round_up w 16 * round_up h 16 := Nat.mul_le_mul hws hhv
  have hR : 8 * a ≤ round_up (round_up w 16 / 2) 16
      ∧ round_up (round_up w 16 / 2) 16 ≤ 8 * a + 8 := by
    rw [ha]
    unfold round_up
    omega
  generalize round_up (round_up w 16 / 2) 16 = R at hR ⊢
  rw [ha, hc] at hwh ⊢
  have hv2 : 16 * c / 2 = 8 * c := by omega
  rw [hv2]
  have e1 : 16 * a * (16 * c) = 256 * (a * c) := by ring
  have e2 : 8 * c * R = 8 * (c * R) := by ring
  have e3 : 3 * w * h = 3 * (w * h) := by ring
  have q1 : c * (8 * a) ≤ c * R := Nat.mul_le_mul_left c hR.1
  have q2 : c * R ≤ c * (8 * a + 8) := Nat.mul_le_mul_left c hR.2
  have e4 : c * (8 * a) = 8 * (a * c) := by ring
  have e5 : c * (8 * a + 8) = 8 * (a * c) + 8 * c := by ring
  rw [e4] at q1
  rw [e5] at q2
  rw [e1] at hwh ⊢
  rw [e2, e3]
  generalize a * c = P at *
  generalize c * R = Q at *
  generalize w * h = X at *
  omega

/-- C16, an instance: width 100, height 100 give `L = 12544`, `C = 3584`, `v = 112`. -/
theorem C16_three_plane_footprint_witness :
    gralloc_alloc_yuv sampleHeaders goodEnv 3 100 100 (sampleFormat .EXYNOS_YV12) 0 0 junk [] =
      gralloc_alloc_yuv_planes goodEnv 3 100 100 (sampleFormat .EXYNOS_YV12) 0 0
        (_select_heap sampleHeaders 0) 12544 3584 3 112 { junk with stride := 112 } []
    ∧ 100 * 100 ≤ 12544 ∧ 12544 / 2 ≤ 2 * 3584 ∧ 2 * 3584 ≤ 12544 / 2 + 8 * 112
    ∧ 3 * 100 * 100 / 2 ≤ 12544 + 2 * 3584 :=
  C16_three_plane_footprint sampleHeaders goodEnv 3 100 100 0 0 junk [] 12544 3584 112
    (by decide) (by decide) (by decide) (by decide) (by decide) (by decide)

/-- C19 fails as stated: for a 16 x 65 `YCbCr_420_SP` buffer the chroma vertical stride
is `round_up(65/2, 32) = 32` and the chroma request asks for `16 * 32 = 512` bytes,
fewer than the `16 * 33 = 528` bytes of `ceil(65/2) = 33` chroma rows; for a 16 x 1
buffer the chroma request asks for 0 bytes. -/
theorem C19_counterexample :
    (requests (gralloc_alloc sampleHeaders goodEnv 3 junk 16 65 (sampleFormat .YCbCr_420_SP) 0
        (some junk.hnd) (some 0)).trace).map IonRequest.len = [1536, 512]
    ∧ round_up (65 / 2) 32 = 32 ∧ (65 + 1) / 2 = 33 ∧ 512 < 16 * 33
    ∧ (requests (gralloc_alloc sampleHeaders goodEnv 3 junk 16 1 (sampleFormat .YCbCr_420_SP) 0
        (some junk.hnd) (some 0)).trace).map IonRequest.len = [512, 0]
    ∧ round_up (1 / 2) 32 = 0 ∧ (1 + 1) / 2 = 1 := by
  decide

/-- The sizes `gralloc_alloc_yuv` passes on for the semi-planar formats, without
32-bit overflow. -/
theorem gralloc_alloc_yuv_two_sizes {H : Headers} (hH : H.WF) (env : Collaborators)
    (ionfd : Int) (w h : Nat) (p : PixelFormat) (usage ion_flags : Nat) (o : Outs)
    (tr : List Event) (hp : plane_count p = 2)
    (hw : w + 15 < 2147483648) (hh : h + 31 < 2147483648)
    (hsize : round_up w 16 * round_up h 32 < 4294967296) :
    gralloc_alloc_yuv H env ionfd w h (H.HAL_PIXEL_FORMAT p) usage ion_flags o tr =
      gralloc_alloc_yuv_planes env ionfd w h (H.HAL_PIXEL_FORMAT p) usage ion_flags
        (_select_heap H usage)
        (round_up w 16 * round_up h 32)
        (round_up w 16 * round_up (h / 2) 32)
        2 (round_up h 32) { o with stride := ((round_up w 16 : Nat) : Int) } tr := by
  have r1 := round_up_le w 16
  have r2 := round_up_le h 32
  have r3 := round_up_le (h / 2) 32
  have r4 := round_up_half_le_32 h
  have a1 : ALIGN_int (w : Int) 16 = ((round_up w 16 : Nat) : Int) :=
    ALIGN_int_natCast w 4 (by omega) (by norm_num; omega)
  have a2 : ALIGN_int (h : Int) 32 = ((round_up h 32 : Nat) : Int) :=
    ALIGN_int_natCast h 5 (by omega) (by norm_num; omega)
  have a3 : u32 ((round_up w 16 : Nat) : Int) = round_up w 16 := u32_natCast _ (by omega)
  have a4 : u32 ((round_up h 32 : Nat) : Int) = round_up h 32 := u32_natCast _ (by omega)
  have a5 : umul (round_up h 32) (round_up w 16) = round_up w 16 * round_up h 32 := by
    unfold umul
    rw [Nat.mul_comm]
    exact Nat.mod_eq_of_lt hsize
  have a6 : idiv (h : Int) 2 = ((h / 2 : Nat) : Int) := idiv_two _ (by omega)
  have a7 : ALIGN_int ((h / 2 : Nat) : Int) 32 = ((round_up (h / 2) 32 : Nat) : Int) :=
    ALIGN_int_natCast _ 5 (by omega) (by norm_num; omega)
  have a8 : u32 ((round_up (h / 2) 32 : Nat) : Int) = round_up (h / 2) 32 :=
    u32_natCast _ (by omega)
  have hchroma : round_up w 16 * round_up (h / 2) 32 ≤ round_up w 16 * round_up h 32 :=
    Nat.mul_le_mul (Nat.le_refl _) r4
  have a9 : umul (round_up (h / 2) 32) (round_up w 16)
      = round_up w 16 * round_up (h / 2) 32 := by
    unfold umul
    rw [Nat.mul_comm]
    exact Nat.mod_eq_of_lt (by omega)
  rw [gralloc_alloc_yuv_two hH env ionfd _ _ p usage _ _ _ hp]
  simp only [a1, a2, a3, a4, a5, a6, a7, a8, a9]

/-- The size `gralloc_alloc_framework_yuv` computes, without 32-bit overflow. -/
theorem framework_size_eq (stride h : Nat) (hsize : stride * h * 3 < 2147483648) :
    u32 (idiv (imul (imul (stride : Int) (h : Int)) 3) 2) = stride * h * 3 / 2 := by
  have hsh : stride * h < 2147483648 := by
    have : stride * h ≤ stride * h * 3 := Nat.le_mul_of_pos_right _ (by decide)
    omega
  have hle : stride * h * 3 / 2 ≤ stride * h * 3 := Nat.div_le_self _ _
  rw [imul_natCast stride h hsh, imul_three _ hsize, idiv_two _ hsize,
    u32_natCast _ (by omega)]

/-- The 4:2:0 footprint of a `w` x `h` image fits into `(stride*h*3)/2` bytes when the
stride is at least `w`. -/
theorem footprint_le (w h stride : Nat) (hs : w ≤ stride) :
    w * h + 2 * (w / 2) * (h / 2) ≤ stride * h * 3 / 2 := by
  have h1 : w * h ≤ stride * h := Nat.mul_le_mul_right h hs
  have h2 : 2 * (w / 2) * (2 * (h / 2)) ≤ w * h :=
    Nat.mul_le_mul (by omega) (by omega)
  have e1 : 2 * (w / 2) * (2 * (h / 2)) = 4 * (w / 2 * (h / 2)) := by ring
  have e2 : 2 * (w / 2) * (h / 2) = 2 * (w / 2 * (h / 2)) := by ring
  rw [e1] at h2
  rw [e2]
  generalize w / 2 * (h / 2) = Z at *
  generalize w * h = X at *
  generalize stride * h = Y at *
  omega

theorem page_size_pos (H : Headers) : 0 < H.PAGE_SIZE := by
  unfold Headers.PAGE_SIZE
  exact Nat.pow_pos (by decide)

/-- C20: for every recognized format and every width and height without 32-bit
overflow, a successful `gralloc_alloc` covers the requested image with its primary
plane: the reported stride is at least `w`, and the size the handle records is at
least `w*b*h` for a packed format with bytes-per-pixel `b`, at least `w*h` for the
luma plane of the two- and three-plane formats, and at least
`w*h + 2*(w/2)*(h/2)` for the combined allocation of the framework-native formats. -/
theorem C20_primary_plane_covers_image (H : Headers) (hH : H.WF) (env : Collaborators)
    (ionfd : Int) (uninit : Outs) (w h : Nat) (p : PixelFormat) (usage : Nat)
    (slotH : private_handle_t) (slotS : Int) (res : AllocResult)
    (hres : res = gralloc_alloc H env ionfd uninit w h (H.HAL_PIXEL_FORMAT p) usage
      (some slotH) (some slotS))
    (hret : res.ret = 0) :
    (∀ b, packed_bpp p = some b →
      w * b + 15 < 2147483648 → h + 15 < 2147483648 →
      round_up (w * b) 16 * round_up h 16 + (H.PAGE_SIZE - 1) < 4294967296 →
      ∃ (S : Nat) (hnd : private_handle_t), res.pStride = some (S : Int)
        ∧ res.pHandle = some hnd ∧ w ≤ S ∧ w * b * h ≤ hnd.size)
    ∧ (p = PixelFormat.EXYNOS_YV12 →
      w + 15 < 2147483648 → h + 15 < 2147483648 →
      round_up w 16 * round_up h 16 < 4294967296 →
      ∃ (S : Nat) (hnd : private_handle_t), res.pStride = some (S : Int)
        ∧ res.pHandle = some hnd ∧ w ≤ S ∧ w * h ≤ hnd.size)
    ∧ (plane_count p = 2 →
      w + 15 < 2147483648 → h + 31 < 2147483648 →
      round_up w 16 * round_up h 32 < 4294967296 →
      ∃ (S : Nat) (hnd : private_handle_t), res.pStride = some (S : Int)
        ∧ res.pHandle = some hnd ∧ w ≤ S ∧ w * h ≤ hnd.size)
    ∧ (p.frameworkNative →
      w + 15 < 2147483648 →
      (if p = PixelFormat.YV12 then round_up w 16 else w) * h * 3 < 2147483648 →
      ∃ (S : Nat) (hnd : private_handle_t), res.pStride = some (S : Int)
        ∧ res.pHandle = some hnd ∧ w ≤ S ∧ w * h + 2 * (w / 2) * (h / 2) ≤ hnd.size) := by
  subst hres
  refine ⟨?_, ?_, ?_, ?_⟩
  · intro b hb hw hh hsize
    obtain ⟨hH1, hS1⟩ := gralloc_alloc_success_packed hH env ionfd uninit w h p b usage slotH
      slotS hb hret
    have hrgb := gralloc_alloc_rgb_packed hH env ionfd w h p b usage (ion_flags_of H usage)
      uninit hb hw hh hsize
    rw [hrgb] at hH1 hS1
    have hbpos := packed_bpp_pos hb
    have hle := le_round_up (w * b) 16 (by decide)
    have hlev := le_round_up h 16 (by decide)
    have hwS : w ≤ round_up (w * b) 16 / b := (Nat.le_div_iff_mul_le (by omega)).mpr hle
    refine ⟨round_up (w * b) 16 / b, _, hS1, hH1, hwS, ?_⟩
    exact le_trans (Nat.mul_le_mul hle hlev) (le_round_up _ _ (page_size_pos H))
  · intro hp hw hh hsize
    subst hp
    obtain ⟨herr, hH1, hS1⟩ := gralloc_alloc_success_planar hH env ionfd uninit w h
      .EXYNOS_YV12 usage slotH slotS rfl hret
    rw [gralloc_alloc_yuv_three_sizes env ionfd w h usage _ _ _ hw hh hsize] at herr hH1 hS1
    obtain ⟨e1, _, _, e4⟩ := gralloc_alloc_yuv_planes_handle _ _ _ _ _ _ _ _ _ _ _ _ _ _ herr
    rw [e1] at hS1
    refine ⟨round_up w 16, _, hS1, hH1, le_round_up w 16 (by decide), ?_⟩
    rw [e4]
    exact Nat.mul_le_mul (le_round_up w 16 (by decide)) (le_round_up h 16 (by decide))
  · intro hp hw hh hsize
    obtain ⟨herr, hH1, hS1⟩ := gralloc_alloc_success_planar hH env ionfd uninit w h
      p usage slotH slotS (packed_bpp_two_plane p hp) hret
    rw [gralloc_alloc_yuv_two_sizes hH env ionfd w h p usage _ _ _ hp hw hh hsize]
      at herr hH1 hS1
    obtain ⟨e1, _, _, e4⟩ := gralloc_alloc_yuv_planes_handle _ _ _ _ _ _ _ _ _ _ _ _ _ _ herr
    rw [e1] at hS1
    refine ⟨round_up w 16, _, hS1, hH1, le_round_up w 16 (by decide), ?_⟩
    rw [e4]
    exact Nat.mul_le_mul (le_round_up w 16 (by decide)) (le_round_up h 32 (by decide))
  · intro hp hw hsize
    obtain ⟨herr, hH1, hS1⟩ := gralloc_alloc_success_planar hH env ionfd uninit w h
      p usage slotH slotS (packed_bpp_framework p hp) hret
    have r1 := round_up_le w 16
    have hcode : (((if p = PixelFormat.YV12 then round_up w 16 else w : Nat)) : Int)
        = if p = PixelFormat.YV12 then ALIGN_int (w : Int) 16 else (w : Int) := by
      by_cases hy : p = PixelFormat.YV12
      · simp only [hy, if_true]
        exact (ALIGN_int_natCast w 4 (by omega) (by norm_num; omega)).symm
      · simp only [hy, if_false]
    have hwS : w ≤ (if p = PixelFormat.YV12 then round_up w 16 else w) := by
      by_cases hy : p = PixelFormat.YV12
      · simp only [hy, if_true]
        exact le_round_up w 16 (by decide)
      · simp only [hy, if_false]
        exact Nat.le_refl w
    have hfw := gralloc_alloc_framework_yuv_eq hH env ionfd w h p usage (ion_flags_of H usage)
      { uninit with stride := ALIGN_int (w : Int) 16 } [] hp _ hcode
    rw [gralloc_alloc_yuv_framework hH env ionfd _ _ p usage _ _ _ hp, hfw,
      framework_size_eq _ h hsize] at herr hH1 hS1
    revert herr hH1 hS1
    generalize env.ion_alloc_fd _ _ = r0
    intro herr hH1 hS1
    by_cases h0 : r0.err = 0
    · simp only [h0, ne_eq, not_true_eq_false, if_false] at hH1 hS1
      refine ⟨_, _, hS1, hH1, hwS, ?_⟩
      simp only [private_handle_t.new1]
      exact footprint_le w h _ hwS
    · simp [h0] at herr

/-- C20, an instance: a 100 x 100 framework-native `YV12` buffer (stride 112, size
16800, footprint 15000). -/
theorem C20_primary_plane_covers_image_witness :
    ∃ (S : Nat) (hnd : private_handle_t),
      (gralloc_alloc sampleHeaders goodEnv 3 junk 100 100 (sampleFormat .YV12) 0
        (some junk.hnd) (some 0)).pStride = some (S : Int)
      ∧ (gralloc_alloc sampleHeaders goodEnv 3 junk 100 100 (sampleFormat .YV12) 0
        (some junk.hnd) (some 0)).pHandle = some hnd
      ∧ 100 ≤ S ∧ 100 * 100 + 2 * (100 / 2) * (100 / 2) ≤ hnd.size :=
  (C20_primary_plane_covers_image sampleHeaders sampleHeaders_wf goodEnv 3 junk 100 100 .YV12 0
    junk.hnd 0 _ rfl (by decide)).2.2.2 (Or.inl rfl) (by decide) (by decide)

/-- C19 (as amended): for the two-plane semi-planar formats and every height `h`
(without 32-bit overflow), `gralloc_alloc_yuv` allocates a chroma plane of
`stride * round_up(h/2, 32)` bytes, `h/2` being integer division; the chroma vertical
stride `round_up(h/2, 32)` is at least `h/2`, so the chroma size is at least
`stride * (h/2)`; it is at least `ceil(h/2)` whenever `h` is even or `h/2` is not a
multiple of 32. -/
theorem C19_chroma_rows (H : Headers) (hH : H.WF) (env : Collaborators)
    (ionfd : Int) (w h : Nat) (p : PixelFormat) (usage ion_flags : Nat) (o : Outs)
    (tr : List Event) (cv C : Nat)
    (hp : plane_count p = 2)
    (hw : w + 15 < 2147483648) (hh : h + 31 < 2147483648)
    (hsize : round_up w 16 * round_up h 32 < 4294967296)
    (hcv : cv = round_up (h / 2) 32) (hC : C = round_up w 16 * cv) :
    gralloc_alloc_yuv H env ionfd w h (H.HAL_PIXEL_FORMAT p) usage ion_flags o tr =
      gralloc_alloc_yuv_planes env ionfd w h (H.HAL_PIXEL_FORMAT p) usage ion_flags
        (_select_heap H usage) (round_up w 16 * round_up h 32) C 2 (round_up h 32)
        { o with stride := ((round_up w 16 : Nat) : Int) } tr
    ∧ h / 2 ≤ cv ∧ round_up w 16 * (h / 2) ≤ C
    ∧ (h % 2 = 0 ∨ (h / 2) % 32 ≠ 0 →
        (h + 1) / 2 ≤ cv ∧ round_up w 16 * ((h + 1) / 2) ≤ C) := by
  subst hcv hC
  have h1 : h / 2 ≤ round_up (h / 2) 32 := le_round_up _ 32 (by decide)
  refine ⟨gralloc_alloc_yuv_two_sizes hH env ionfd w h p usage ion_flags o tr hp hw hh hsize,
    h1, Nat.mul_le_mul_left _ h1, ?_⟩
  intro hcase
  have h2 : (h + 1) / 2 ≤ round_up (h / 2) 32 := by
    unfold round_up
    omega
  exact ⟨h2, Nat.mul_le_mul_left _ h2⟩

/-- C19, an instance: a 100 x 100 `YCbCr_420_SP` buffer has 64 chroma rows of 112
bytes, at least the 50 rows of the image. -/
theorem C19_chroma_rows_witness :
    gralloc_alloc_yuv sampleHeaders goodEnv 3 100 100 (sampleFormat .YCbCr_420_SP) 0 0 junk [] =
      gralloc_alloc_yuv_planes goodEnv 3 100 100 (sampleFormat .YCbCr_420_SP) 0 0
        (_select_heap sampleHeaders 0) 14336 7168 2 128 { junk with stride := 112 } []
    ∧ 100 / 2 ≤ 64 ∧ 112 * (100 / 2) ≤ 7168
    ∧ (100 % 2 = 0 ∨ (100 / 2) % 32 ≠ 0 → (100 + 1) / 2 ≤ 64 ∧ 112 * ((100 + 1) / 2) ≤ 7168) :=
  C19_chroma_rows sampleHeaders sampleHeaders_wf goodEnv 3 100 100 .YCbCr_420_SP 0 0 junk []
    64 7168 rfl (by decide) (by decide) (by decide) (by decide) (by decide)

end Gralloc
